import Mathlib

/-! Starboard security operator: startup wiring and reconciliation engine.

A shallow embedding of `cmd/operator/main.go`: the scanner selection
(`getEnabledScanner`) and the startup sequence (`run`).  Calls that leave the
file (configuration loading, the Kubernetes client, the controller manager)
are taken from a `World` record that fixes, for one execution, what each
collaborator answers.  `run` is embedded as a function from such a world to
the ordered list of startup steps it performs together with the way it ends.
-/

namespace Operator

/-! ## Values of the Go program -/

/-- Go `error` values as built in this file: `errors.New` / `fmt.Errorf`
without a wrapping verb give `new`, `fmt.Errorf("...: %w", err)` gives `wrapf`. -/
inductive GoError where
  | new (msg : String)
  | wrapf (context : String) (cause : GoError)
  deriving DecidableEq, Repr

/-- The text `Error()` prints. -/
def GoError.text : GoError → String
  | .new msg => msg
  | .wrapf context cause => context ++ ": " ++ cause.text

/-- What `errors.Unwrap` gives. -/
def GoError.unwrap : GoError → Option GoError
  | .new _ => none
  | .wrapf _ cause => some cause

/-- The value of `etc.VersionInfo`; the type is declared in `pkg/etc`, the fields
are those the literal in `main.go` sets. -/
structure VersionInfo where
  Version : String
  Commit : String
  Date : String
  deriving DecidableEq, Repr

/-- The settings of the Trivy backend read by this file. -/
structure ScannerTrivy where
  Enabled : Bool
  Version : String
  deriving DecidableEq, Repr

/-- The settings of the Aqua CSP backend read by this file. -/
structure ScannerAquaCSP where
  Enabled : Bool
  Version : String
  deriving DecidableEq, Repr

/-- The operator settings read by this file. -/
structure OperatorCfg where
  StarboardNamespace : String
  Namespace : String
  deriving DecidableEq, Repr

/-- The value of `etc.Config`; the type is declared in `pkg/etc`, the fields are
those `main.go` reads, and `rest` stands for every other field of the record. -/
structure Config where
  Operator : OperatorCfg
  ScannerTrivy : ScannerTrivy
  ScannerAquaCSP : ScannerAquaCSP
  rest : List (String × String)
  deriving DecidableEq, Repr

/-- A `*rest.Config` handle. -/
structure RestConfig where
  host : String
  deriving DecidableEq, Repr

/-- A `*kubernetes.Clientset` handle. -/
structure Clientset where
  id : Nat
  deriving DecidableEq, Repr

/-- The value of `pods.NewPodManager(clientset)`. -/
structure PodManager where
  clientset : Clientset
  deriving DecidableEq, Repr

/-- The value of `pods.NewPodManager`. -/
def NewPodManager (c : Clientset) : PodManager := ⟨c⟩

/-- A `*runtime.Scheme`: the API groups added to it. -/
structure Scheme where
  groups : List String
  deriving DecidableEq, Repr

/-- A `client.Client` handle. -/
structure Client where
  id : Nat
  deriving DecidableEq, Repr

/-- A `ctrl.Manager`: what `GetClient` and `GetScheme` answer. -/
structure Manager where
  client : Client
  mgrScheme : Scheme
  deriving DecidableEq, Repr

/-- The method `mgr.GetClient()`. -/
def Manager.GetClient (m : Manager) : Client := m.client

/-- The method `mgr.GetScheme()`. -/
def Manager.GetScheme (m : Manager) : Scheme := m.mgrScheme

/-- The value of `kube.ScannerOpts{}`. -/
structure ScannerOpts where
  deriving DecidableEq, Repr

/-- The value of `&scanner.RandomNamesGenerator{}`. -/
structure RandomNamesGenerator where
  deriving DecidableEq, Repr

/-- The scanners `getEnabledScanner` can build: `trivy.NewScanner(opts, clientset)`
and `scanner.NewScanner(versionInfo, config, names, pods)`. -/
inductive Scanner where
  | trivy (opts : ScannerOpts) (kubeClientset : Clientset)
  | aquaCSP (info : VersionInfo) (config : Config) (names : RandomNamesGenerator)
      (pods : PodManager)
  deriving DecidableEq, Repr

/-- The value of `reports.NewStore(client, scheme)`. -/
structure Store where
  client : Client
  storeScheme : Scheme
  deriving DecidableEq, Repr

/-- The value of `reports.NewStore`. -/
def NewStore (c : Client) (s : Scheme) : Store := ⟨c, s⟩

/-- A logger: the names given to it by `WithName`, outermost first. -/
abbrev Logger := List String

/-- The fields of `controllers.PodReconciler` set by `run`; `Scanner` is a Go
interface value, `none` when nil. -/
structure PodReconciler where
  StarboardNamespace : String
  Namespace : String
  Client : Client
  Store : Store
  Scanner : Option Scanner
  Log : Logger
  Scheme : Scheme
  deriving DecidableEq, Repr

/-- The fields of `controllers.JobReconciler` set by `run`; `Scanner` is a Go
interface value, `none` when nil. -/
structure JobReconciler where
  StarboardNamespace : String
  Client : Client
  Store : Store
  Scanner : Option Scanner
  Pods : PodManager
  Log : Logger
  Scheme : Scheme
  deriving DecidableEq, Repr

/-- One line written through `setupLog.Info`: message, then key and value. -/
structure LogLine where
  msg : String
  kv : List (String × String)
  deriving DecidableEq, Repr

/-! ## Package-level variables -/

/-- The package variable `version`. -/
def version : String := "dev"

/-- The package variable `commit`. -/
def commit : String := "none"

/-- The package variable `date`. -/
def date : String := "unknown"

/-- The package variable `versionInfo`. -/
def versionInfo : VersionInfo := ⟨version, commit, date⟩

/-- The package variable `scheme` after `init` has added the four API groups. -/
def scheme : Scheme := ⟨["core/v1", "batch/v1", "apps/v1", "aquasecurity/v1alpha1"]⟩

/-! ## getEnabledScanner -/

/-- What `getEnabledScanner` hands back: the Go pair `(scanner, err)` and the
lines it logged on the way. -/
structure Selected where
  scanner : Option Scanner
  err : Option GoError
  logged : List LogLine
  deriving DecidableEq, Repr

/-- The function `getEnabledScanner` of `main.go`, one `if` per source `if`, in
source order. -/
def getEnabledScanner (config : Config) (kubeClientset : Clientset) (pods : PodManager) :
    Selected :=
  if config.ScannerTrivy.Enabled && config.ScannerAquaCSP.Enabled then
    ⟨none, some (.new "invalid configuration: multiple vulnerability scanners enabled"), []⟩
  else if !config.ScannerTrivy.Enabled && !config.ScannerAquaCSP.Enabled then
    ⟨none, some (.new "invalid configuration: none vulnerability scanner enabled"), []⟩
  else if config.ScannerTrivy.Enabled then
    ⟨some (.trivy {} kubeClientset), none,
      [⟨"Using Trivy as vulnerability scanner", [("version", config.ScannerTrivy.Version)]⟩]⟩
  else if config.ScannerAquaCSP.Enabled then
    ⟨some (.aquaCSP versionInfo config {} pods), none,
      [⟨"Using Aqua CSP as vulnerability scanner",
        [("version", config.ScannerAquaCSP.Version)]⟩]⟩
  else
    ⟨none, some (.new "invalid configuration: unhandled vulnerability scanners config"), []⟩

/-! ## run -/

/-- How a call of `mgr.Start` ends: it blocks for the life of the process, or it
comes back with `err`. -/
inductive StartOutcome where
  | blocks
  | returns (err : Option GoError)
  deriving DecidableEq, Repr

/-- The answers of the collaborators of `run` in one execution.
`getConfigOrDie = none` is the case in which `ctrl.GetConfigOrDie` ends the
process instead of returning. -/
structure World where
  getConfig : Except GoError Config
  getConfigOrDie : Option RestConfig
  newForConfig : RestConfig → Except GoError Clientset
  newManager : RestConfig → Scheme → Except GoError Manager
  podSetupWithManager : PodReconciler → Manager → Option GoError
  jobSetupWithManager : JobReconciler → Manager → Option GoError
  start : Manager → StartOutcome

/-- The startup steps of `run`, each with the arguments it was given. -/
inductive Step where
  | loadConfig
  | getKubeConfig
  | newClientset (kubernetesConfig : RestConfig)
  | newPodManager (kubernetesClientset : Clientset)
  | selectScanner (config : Config) (kubernetesClientset : Clientset) (pods : PodManager)
  | log (line : LogLine)
  | newManager (kubernetesConfig : RestConfig) (s : Scheme)
  | newStore (c : Client) (s : Scheme)
  | setupPod (r : PodReconciler) (mgr : Manager)
  | setupJob (r : JobReconciler) (mgr : Manager)
  | startManager (mgr : Manager)
  deriving DecidableEq, Repr

/-- How `run` ends: the process exits inside `ctrl.GetConfigOrDie`, `mgr.Start`
never comes back, or `run` returns `err`. -/
inductive RunResult where
  | exited
  | blocked
  | returned (err : Option GoError)
  deriving DecidableEq, Repr

/-- An execution of `run`: the steps performed, in order, and the end. -/
structure Execution where
  trace : List Step
  result : RunResult
  deriving DecidableEq, Repr

/-- The function `run` of `main.go`, statement by statement. -/
def run (w : World) : Execution :=
  match w.getConfig with
  | .error err => ⟨[.loadConfig], .returned (some err)⟩
  | .ok config =>
    match w.getConfigOrDie with
    | none => ⟨[.loadConfig, .getKubeConfig], .exited⟩
    | some kubernetesConfig =>
      match w.newForConfig kubernetesConfig with
      | .error err =>
        ⟨[.loadConfig, .getKubeConfig, .newClientset kubernetesConfig], .returned (some err)⟩
      | .ok kubernetesClientset =>
        let pods := NewPodManager kubernetesClientset
        let sel := getEnabledScanner config kubernetesClientset pods
        let t₁ : List Step :=
          [.loadConfig, .getKubeConfig, .newClientset kubernetesConfig,
            .newPodManager kubernetesClientset,
            .selectScanner config kubernetesClientset pods] ++ sel.logged.map .log
        let scanner := sel.scanner
        match sel.err with
        | some err => ⟨t₁, .returned (some err)⟩
        | none =>
          match w.newManager kubernetesConfig scheme with
          | .error err =>
            ⟨t₁ ++ [.newManager kubernetesConfig scheme],
              .returned (some (.wrapf "unable to start manager" err))⟩
          | .ok mgr =>
            let store := NewStore mgr.GetClient scheme
            let podR : PodReconciler :=
              { StarboardNamespace := config.Operator.StarboardNamespace
                Namespace := config.Operator.Namespace
                Client := mgr.GetClient
                Store := store
                Scanner := scanner
                Log := ["controllers", "pod"]
                Scheme := mgr.GetScheme }
            let t₂ := t₁ ++ [.newManager kubernetesConfig scheme,
              .newStore mgr.GetClient scheme, .setupPod podR mgr]
            match w.podSetupWithManager podR mgr with
            | some err => ⟨t₂, .returned (some (.wrapf "unable to create pod controller" err))⟩
            | none =>
              let jobR : JobReconciler :=
                { StarboardNamespace := config.Operator.StarboardNamespace
                  Client := mgr.GetClient
                  Store := store
                  Scanner := scanner
                  Pods := pods
                  Log := ["controllers", "job"]
                  Scheme := mgr.GetScheme }
              let t₃ := t₂ ++ [.setupJob jobR mgr]
              match w.jobSetupWithManager jobR mgr with
              | some err =>
                ⟨t₃, .returned (some (.wrapf "unable to create job controller" err))⟩
              | none =>
                let t₄ := t₃ ++ [.log ⟨"starting manager", []⟩, .startManager mgr]
                match w.start mgr with
                | .blocks => ⟨t₄, .blocked⟩
                | .returns (some err) =>
                  ⟨t₄, .returned (some (.wrapf "problem running manager" err))⟩
                | .returns none => ⟨t₄, .returned none⟩

/-- The startup steps of `run` that can fail, by name: the seven that can return
an error and `ctrl.GetConfigOrDie`, which ends the process instead. -/
inductive StepKind where
  | loadConfig
  | getKubeConfig
  | buildClientset
  | selectScanner
  | createManager
  | setupPod
  | setupJob
  | startManager
  deriving DecidableEq, Repr

/-- The name of a step; the calls that cannot fail have none. -/
def Step.kind : Step → Option StepKind
  | .loadConfig => some .loadConfig
  | .getKubeConfig => some .getKubeConfig
  | .newClientset _ => some .buildClientset
  | .newPodManager _ => none
  | .selectScanner _ _ _ => some .selectScanner
  | .log _ => none
  | .newManager _ _ => some .createManager
  | .newStore _ _ => none
  | .setupPod _ _ => some .setupPod
  | .setupJob _ _ => some .setupJob
  | .startManager _ => some .startManager

/-- The named steps in source order. -/
def startupOrder : List StepKind :=
  [.loadConfig, .getKubeConfig, .buildClientset, .selectScanner, .createManager, .setupPod,
    .setupJob, .startManager]

/-- The seven steps that return an error when they fail, in source order. -/
def errorSteps : List StepKind :=
  [.loadConfig, .buildClientset, .selectScanner, .createManager, .setupPod, .setupJob,
    .startManager]

/-- The named steps an execution performed, in the order it performed them. -/
def Execution.kinds (e : Execution) : List StepKind := e.trace.filterMap Step.kind

/-- Whether a step is a call of `getEnabledScanner`. -/
def Step.isSelectScanner : Step → Bool
  | .selectScanner _ _ _ => true
  | _ => false

/-- Whether a step constructs the report store. -/
def Step.isNewStore : Step → Bool
  | .newStore _ _ => true
  | _ => false

/-- Whether a step hands a reconciler to the manager. -/
def Step.isSetup : Step → Bool
  | .setupPod _ _ => true
  | .setupJob _ _ => true
  | _ => false

/-- Whether a step creates the manager or the report store, sets up a reconciler,
or starts the manager. -/
def Step.usesManager : Step → Bool
  | .newManager _ _ => true
  | .newStore _ _ => true
  | .setupPod _ _ => true
  | .setupJob _ _ => true
  | .startManager _ => true
  | _ => false

/-- The `controllers.PodReconciler` literal of `run`. -/
def podReconcilerOf (config : Config) (mgr : Manager) (scanner : Option Scanner) :
    PodReconciler :=
  { StarboardNamespace := config.Operator.StarboardNamespace
    Namespace := config.Operator.Namespace
    Client := mgr.GetClient
    Store := NewStore mgr.GetClient scheme
    Scanner := scanner
    Log := ["controllers", "pod"]
    Scheme := mgr.GetScheme }

/-- The `controllers.JobReconciler` literal of `run`. -/
def jobReconcilerOf (config : Config) (mgr : Manager) (scanner : Option Scanner)
    (pods : PodManager) : JobReconciler :=
  { StarboardNamespace := config.Operator.StarboardNamespace
    Client := mgr.GetClient
    Store := NewStore mgr.GetClient scheme
    Scanner := scanner
    Pods := pods
    Log := ["controllers", "job"]
    Scheme := mgr.GetScheme }

/-- The answers that take `run` as far as the call of `getEnabledScanner`: the
configuration loads, `ctrl.GetConfigOrDie` returns, the clientset is built. -/
def World.reachesScanner (w : World) (config : Config) (kc : RestConfig) (cs : Clientset) :
    Prop :=
  w.getConfig = .ok config ∧ w.getConfigOrDie = some kc ∧ w.newForConfig kc = .ok cs

/-- The answers that take `run` as far as `ctrl.NewManager`: as before, and
`getEnabledScanner` returns a nil error. -/
def World.reachesManager (w : World) (config : Config) (kc : RestConfig) (cs : Clientset) :
    Prop :=
  w.reachesScanner config kc cs ∧ (getEnabledScanner config cs (NewPodManager cs)).err = none

/-- The answers that take `run` as far as the set-up of the pod reconciler: as
before, and `ctrl.NewManager` returns the manager `m`. -/
def World.reachesPodSetup (w : World) (config : Config) (kc : RestConfig) (cs : Clientset)
    (m : Manager) : Prop :=
  w.reachesManager config kc cs ∧ w.newManager kc scheme = .ok m

/-- The answers that take `run` as far as the set-up of the job reconciler: as
before, and the set-up of the pod reconciler returns nil. -/
def World.reachesJobSetup (w : World) (config : Config) (kc : RestConfig) (cs : Clientset)
    (m : Manager) : Prop :=
  w.reachesPodSetup config kc cs m ∧
    w.podSetupWithManager
      (podReconcilerOf config m (getEnabledScanner config cs (NewPodManager cs)).scanner) m
      = none

/-- The answers that take `run` as far as `mgr.Start`: as before, and the set-up
of the job reconciler returns nil. -/
def World.reachesStart (w : World) (config : Config) (kc : RestConfig) (cs : Clientset)
    (m : Manager) : Prop :=
  w.reachesJobSetup config kc cs m ∧
    w.jobSetupWithManager
      (jobReconcilerOf config m (getEnabledScanner config cs (NewPodManager cs)).scanner
        (NewPodManager cs)) m
      = none

/-- A world in which every collaborator succeeds, for a given configuration and a
given answer of `ctrl.GetConfigOrDie`. -/
def sampleWorld (config : Config) (kube : Option RestConfig) : World :=
  { getConfig := .ok config
    getConfigOrDie := kube
    newForConfig := fun _ => .ok ⟨1⟩
    newManager := fun _ s => .ok ⟨⟨2⟩, s⟩
    podSetupWithManager := fun _ _ => none
    jobSetupWithManager := fun _ _ => none
    start := fun _ => .returns none }

/-- The number of scanner backends a configuration enables. -/
def enabledCount (config : Config) : Nat :=
  (if config.ScannerTrivy.Enabled then 1 else 0) +
    (if config.ScannerAquaCSP.Enabled then 1 else 0)

/-- A configuration with both Enabled flags given and every other field arbitrary. -/
def configWith (trivyOn aquaOn : Bool) (o : OperatorCfg) (vt va : String)
    (r : List (String × String)) : Config :=
  { Operator := o, ScannerTrivy := ⟨trivyOn, vt⟩, ScannerAquaCSP := ⟨aquaOn, va⟩, rest := r }

/-- Sample configurations, one per combination of the two flags. -/
def sampleConfig (trivyOn aquaOn : Bool) : Config :=
  configWith trivyOn aquaOn ⟨"starboard", "default"⟩ "0.9.1" "5.0" []

/-- A world in which the configuration loads with only Trivy enabled and every
collaborator succeeds up to the set-up of the pod reconciler, which fails. -/
def podSetupFailsWorld : World :=
  { sampleWorld (sampleConfig true false) (some ⟨"k8s"⟩) with
    podSetupWithManager := fun _ _ => some (.new "no kind registered") }

/-- The steps of `run` up to and including the call of `getEnabledScanner` and the
line it logs. -/
def traceScanner (config : Config) (kc : RestConfig) (cs : Clientset) : List Step :=
  [.loadConfig, .getKubeConfig, .newClientset kc, .newPodManager cs,
    .selectScanner config cs (NewPodManager cs)]
    ++ (getEnabledScanner config cs (NewPodManager cs)).logged.map .log

/-- The steps of `run` up to and including the set-up of the pod reconciler. -/
def tracePodSetup (config : Config) (kc : RestConfig) (cs : Clientset) (m : Manager) :
    List Step :=
  traceScanner config kc cs ++
    [.newManager kc scheme, .newStore m.GetClient scheme,
      .setupPod
        (podReconcilerOf config m (getEnabledScanner config cs (NewPodManager cs)).scanner) m]

/-- The steps of `run` up to and including the set-up of the job reconciler. -/
def traceJobSetup (config : Config) (kc : RestConfig) (cs : Clientset) (m : Manager) :
    List Step :=
  tracePodSetup config kc cs m ++
    [.setupJob
      (jobReconcilerOf config m (getEnabledScanner config cs (NewPodManager cs)).scanner
        (NewPodManager cs)) m]

/-- The steps of `run` up to and including `mgr.Start`. -/
def traceStart (config : Config) (kc : RestConfig) (cs : Clientset) (m : Manager) :
    List Step :=
  traceJobSetup config kc cs m ++ [.log ⟨"starting manager", []⟩, .startManager m]

/-- The end of `run` for each way `mgr.Start` can end. -/
def startResult : StartOutcome → RunResult
  | .blocks => .blocked
  | .returns (some err) => .returned (some (.wrapf "problem running manager" err))
  | .returns none => .returned none

end Operator

/-! ## The reconciliation engine

`run` hands the scanner and the report store to `controllers.PodReconciler` and
`controllers.JobReconciler`; the two packages are not part of the sources at
hand.  The definitions of this section follow the specification's sections 3 to 5
instead: the data model, the report store, and the two control loops as a
transition system over observation events. -/

namespace Engine

/-- Modelled from the spec: the reconcile key of a workload, its namespace and
name (section 3, WorkloadRef; `pkg/controllers` is missing). -/
abbrev WorkloadKey := String × String

/-- Modelled from the spec: a scan target, a (workload, container name) pair, which
is also the key of the report store (section 4.4; `pkg/reports` is missing). -/
abbrev Target := WorkloadKey × String

/-- Modelled from the spec: a container of a workload, its name and image reference
(section 3, WorkloadRef; `pkg/controllers` is missing). -/
structure Container where
  name : String
  image : String
  deriving DecidableEq, Repr

/-- Modelled from the spec: the snapshot of a workload taken at reconcile time
(section 3, WorkloadRef; `pkg/controllers` is missing). -/
structure WorkloadRef where
  ns : String
  name : String
  uid : String
  containers : List Container
  deriving DecidableEq, Repr

/-- Modelled from the spec: the key a workload is reconciled and stored under
(section 3; `pkg/controllers` is missing). -/
def WorkloadRef.key (w : WorkloadRef) : WorkloadKey := (w.ns, w.name)

/-- Modelled from the spec: the phases of a scan-execution unit (section 4.3;
`pkg/controllers` is missing). -/
inductive Phase where
  | pending
  | running
  | succeeded
  | failed
  deriving DecidableEq, Repr

/-- Modelled from the spec: the transitions Pending, Running, then Succeeded or
Failed, made by the execution substrate (section 4.3; `pkg/controllers` is
missing). -/
def Phase.canBecome : Phase → Phase → Bool
  | .pending, .running => true
  | .running, .succeeded => true
  | .running, .failed => true
  | _, _ => false

/-- Modelled from the spec: a ScanJobRef, the scanner-assigned name, the owning
workload, the target container and image, and the phase (section 3;
`pkg/controllers` is missing). -/
structure ScanJobRef where
  name : String
  owner : WorkloadKey
  container : String
  image : String
  phase : Phase
  deriving DecidableEq, Repr

/-- Modelled from the spec: the (workload, container) pair a ScanJobRef scans
(section 3; `pkg/controllers` is missing). -/
def ScanJobRef.target (j : ScanJobRef) : Target := (j.owner, j.container)

/-- Modelled from the spec: one finding of a report (section 3 and glossary;
`pkg/reports` is missing). -/
structure Finding where
  severity : String
  identifier : String
  pkg : String
  version : String
  fixedVersion : Option String
  deriving DecidableEq, Repr

/-- Modelled from the spec: what a finished scan yields, the scanner identity, the
time and the findings (section 3, Report; `pkg/reports` is missing). -/
structure ScanOutput where
  scanner : String
  timestamp : Nat
  findings : List Finding
  deriving DecidableEq, Repr

/-- Modelled from the spec: a Report, the scan output with the hash of the image
reference it was made for (section 3; `pkg/reports` is missing). -/
structure Report where
  output : ScanOutput
  imageHash : Nat
  deriving DecidableEq, Repr

/-- Modelled from the spec: the contents of the report store, newest entry first
(section 4.4; `pkg/reports` is missing). -/
abbrev Reports := List (Target × Report)

/-- Modelled from the spec: `Get(key)`, the report stored under the key or not found
(section 4.4; `pkg/reports` is missing). -/
def Get : Reports → Target → Option Report
  | [], _ => none
  | (k, r) :: rest, key => if k = key then some r else Get rest key

/-- Modelled from the spec: `Upsert(key, Report)`, which overwrites unconditionally
(section 4.4; `pkg/reports` is missing). -/
def Upsert (st : Reports) (key : Target) (r : Report) : Reports :=
  (key, r) :: st.filter (fun e => e.1 ≠ key)

/-- Modelled from the spec: `Exists(key, imageHash)`, whether the current report of
the key was made for that image hash (section 4.4; `pkg/reports` is missing). -/
def StoreExists (st : Reports) (key : Target) (imageHash : Nat) : Bool :=
  match Get st key with
  | some r => decide (r.imageHash = imageHash)
  | none => false

/-- Modelled from the spec: the two scanner variants, synchronous-inline and
asynchronous-dispatched (section 4.1; `pkg/aqua/scanner` is missing). -/
inductive Variant where
  | sync
  | async
  deriving DecidableEq, Repr

/-- Modelled from the spec: how a call of `Start` ends at the backend: with an
error, or well, in which case the synchronous variant uses the output and the
asynchronous one the generated job name (section 4.1; `pkg/aqua/scanner` is
missing). -/
inductive StartAnswer where
  | failed
  | ok (output : ScanOutput) (jobName : String)
  deriving DecidableEq, Repr

/-- Modelled from the spec: a Start call the workload reconciler has decided on and
not yet finished, for one container of one workload (section 4.2;
`pkg/controllers` is missing). -/
structure Dispatch where
  key : WorkloadKey
  container : String
  image : String
  deriving DecidableEq, Repr

/-- Modelled from the spec: the Dispatch aims at this (workload, container) pair
(section 4.2; `pkg/controllers` is missing). -/
def Dispatch.target (d : Dispatch) : Target := (d.key, d.container)

/-- Modelled from the spec: the shared state the two reconcilers act on, the live
ScanJobRefs of the execution substrate, the report store, and the Start calls in
progress (section 5; `pkg/controllers` is missing). -/
structure State where
  jobs : List ScanJobRef
  reports : Reports
  inflight : List Dispatch
  deriving DecidableEq, Repr

/-- Modelled from the spec: the state at process start, nothing scanned
(section 3, lifecycle; `pkg/controllers` is missing). -/
def State.init : State := ⟨[], [], []⟩

/-- Modelled from the spec: whether a live ScanJobRef owned by the workload and
container exists, the check made before `Start` (section 4.2; `pkg/controllers` is
missing). -/
def hasLiveJob (s : State) (t : Target) : Bool :=
  s.jobs.any (fun j => decide (j.target = t))

/-- Modelled from the spec: the number of live ScanJobRefs of a (workload,
container) pair (section 8, at-most-one-in-flight; `pkg/controllers` is missing). -/
def liveCount (s : State) (t : Target) : Nat :=
  (s.jobs.filter (fun j => decide (j.target = t))).length

/-- Modelled from the spec: NeedsScan, no current Report or one for another image
hash (section 4.2; `pkg/controllers` is missing). -/
def needsScan (hash : String → Nat) (s : State) (k : WorkloadKey) (c : Container) : Bool :=
  !StoreExists s.reports (k, c.name) (hash c.image)

/-- Modelled from the spec: whether a reconcile of the workload is in the middle of
a Start call; reconciles of one key are serialized (section 5; `pkg/controllers` is
missing). -/
def busy (s : State) (k : WorkloadKey) : Bool :=
  s.inflight.any (fun d => decide (d.key = k))

/-- Modelled from the spec: deleting a ScanJobRef by key, delete-if-present
(section 6; `pkg/controllers` is missing). -/
def deleteJob (s : State) (jobName : String) : State :=
  { s with jobs := s.jobs.filter (fun j => j.name ≠ jobName) }

/-- Modelled from the spec: creating a ScanJobRef, create-if-absent by name
(section 6; `pkg/controllers` is missing). -/
def createJob (s : State) (j : ScanJobRef) : State :=
  if s.jobs.any (fun j' => decide (j'.name = j.name)) then s
  else { s with jobs := j :: s.jobs }

/-- Modelled from the spec: the events of the two control loops and of the
execution substrate (sections 4.2, 4.3 and 6; `pkg/controllers` is missing).
`observeWorkload` is the workload reconciler deriving the state of one container,
`startReturns` the end of the Start call it decided on, `phaseChange` the substrate
moving a scan-execution unit, `observeJob` the scan-job reconciler looking at one
unit, told whether the owning workload still exists and what retrieval gave,
`restart` a process restart, which forgets the Start calls in progress and keeps
the substrate and the store. -/
inductive Event where
  | observeWorkload (w : WorkloadRef) (c : Container)
  | startReturns (key : WorkloadKey) (answer : StartAnswer)
  | phaseChange (jobName : String) (p : Phase)
  | observeJob (jobName : String) (ownerExists : Bool) (fetched : Option ScanOutput)
  | restart
  deriving DecidableEq, Repr

/-- Modelled from the spec: the end of a Start call for a Dispatch: an error changes
nothing, the synchronous variant upserts the Report, the asynchronous variant
creates a Pending ScanJobRef (sections 4.1 and 4.2; `pkg/controllers` and
`pkg/aqua/scanner` are missing). -/
def finishStart (hash : String → Nat) (variant : Variant) (s : State) (d : Dispatch) :
    StartAnswer → State
  | .failed => s
  | .ok output jobName =>
    match variant with
    | .sync => { s with reports := Upsert s.reports d.target ⟨output, hash d.image⟩ }
    | .async => createJob s ⟨jobName, d.key, d.container, d.image, .pending⟩

/-- Modelled from the spec: the scan-job reconciler on one live ScanJobRef (section
4.3; `pkg/controllers` is missing): an orphan is deleted without a Report; on
Succeeded the Report is upserted and the unit deleted, or only deleted when the
Report already matches the image hash; on Failed the unit is deleted; otherwise
nothing happens. -/
def reconcileJob (hash : String → Nat) (s : State) (j : ScanJobRef) (ownerExists : Bool)
    (fetched : Option ScanOutput) : State :=
  if !ownerExists then deleteJob s j.name
  else
    match j.phase with
    | .succeeded =>
      if StoreExists s.reports j.target (hash j.image) then deleteJob s j.name
      else
        match fetched with
        | none => s
        | some output =>
          deleteJob { s with reports := Upsert s.reports j.target ⟨output, hash j.image⟩ }
            j.name
    | .failed => deleteJob s j.name
    | _ => s

/-- Modelled from the spec: one event applied to the state (sections 4.2, 4.3 and
5; `pkg/controllers` is missing). -/
def step (hash : String → Nat) (variant : Variant) (s : State) : Event → State
  | .observeWorkload w c =>
    if busy s w.key then s
    else if c ∈ w.containers ∧ needsScan hash s w.key c = true
        ∧ hasLiveJob s (w.key, c.name) = false then
      { s with inflight := ⟨w.key, c.name, c.image⟩ :: s.inflight }
    else s
  | .startReturns key answer =>
    match s.inflight.find? (fun d => decide (d.key = key)) with
    | none => s
    | some d =>
      finishStart hash variant
        { s with inflight := s.inflight.filter (fun d' => d'.key ≠ key) } d answer
  | .phaseChange jobName p =>
    { s with jobs := s.jobs.map (fun j =>
        if j.name = jobName ∧ j.phase.canBecome p = true then { j with phase := p } else j) }
  | .observeJob jobName ownerExists fetched =>
    match s.jobs.find? (fun j => decide (j.name = jobName)) with
    | none => s
    | some j => reconcileJob hash s j ownerExists fetched
  | .restart => { s with inflight := [] }

/-- Modelled from the spec: an execution, the events in the order they take effect
(section 5; `pkg/controllers` is missing). -/
def exec (hash : String → Nat) (variant : Variant) (s : State) (evs : List Event) : State :=
  evs.foldl (step hash variant) s

/-- A stand-in for the hash of an image reference, used in the examples. -/
def sampleHash (image : String) : Nat := image.length

/-- The workload of the specification's first scenario. -/
def web1 : WorkloadRef := ⟨"ns", "web-1", "uid-1", [⟨"app", "img@sha256:AAA"⟩]⟩

/-- The scan output of the specification's first scenario, cut to one finding. -/
def sampleOutput : ScanOutput :=
  ⟨"aqua", 1, [⟨"HIGH", "CVE-2020-0001", "openssl", "1.0", some "1.1"⟩]⟩

/-- The specification's first scenario as events of the asynchronous variant. -/
def scenario : List Event :=
  [.observeWorkload web1 ⟨"app", "img@sha256:AAA"⟩,
    .startReturns web1.key (.ok sampleOutput "scan-web-1-app-x7"),
    .observeWorkload web1 ⟨"app", "img@sha256:AAA"⟩,
    .startReturns web1.key (.ok sampleOutput "scan-web-1-app-k2"),
    .phaseChange "scan-web-1-app-x7" .running,
    .phaseChange "scan-web-1-app-x7" .succeeded,
    .observeJob "scan-web-1-app-x7" true (some sampleOutput)]

/-- The invariant of the engine: the live ScanJobRefs have pairwise different
targets, no Start call in progress aims at a target that has a live ScanJobRef,
and no workload has two Start calls in progress. -/
def Inv (s : State) : Prop :=
  (s.jobs.map ScanJobRef.target).Nodup ∧
  (∀ d ∈ s.inflight, d.target ∉ s.jobs.map ScanJobRef.target) ∧
  (s.inflight.map Dispatch.key).Nodup

end Engine

namespace Operator

/-! ## Theorems: getEnabledScanner -/

/-- C1: `getEnabledScanner` returns an error exactly when the number of enabled
backends is not one, which is exactly when the two Enabled flags are equal, and
the outcome (error or not) is unchanged when every other field and both other
arguments are replaced. -/
theorem getEnabledScanner_err_iff (config : Config) (cs : Clientset) (pods : PodManager) :
    ((getEnabledScanner config cs pods).err.isSome = true ↔ enabledCount config ≠ 1) ∧
    (enabledCount config ≠ 1 ↔
      config.ScannerTrivy.Enabled = config.ScannerAquaCSP.Enabled) ∧
    (∀ (o : OperatorCfg) (vt va : String) (r : List (String × String))
        (cs' : Clientset) (pods' : PodManager),
      (getEnabledScanner
          (configWith config.ScannerTrivy.Enabled config.ScannerAquaCSP.Enabled o vt va r)
          cs' pods').err.isSome
        = (getEnabledScanner config cs pods).err.isSome) := by
  rcases config with ⟨o, ⟨a, v⟩, ⟨b, v'⟩, r⟩
  cases a <;> cases b <;> simp [getEnabledScanner, enabledCount, configWith]

/-- C3: with exactly one backend enabled `getEnabledScanner` returns a nil error
and a scanner; the scanner is the Trivy one built from the clientset when Trivy is
the enabled backend, the Aqua CSP one built from the configuration when Aqua CSP
is, and nothing else. -/
theorem getEnabledScanner_one_enabled (config : Config) (cs : Clientset) (pods : PodManager)
    (h : enabledCount config = 1) :
    (getEnabledScanner config cs pods).err = none ∧
    (getEnabledScanner config cs pods).scanner ≠ none ∧
    (config.ScannerTrivy.Enabled = true ∧ config.ScannerAquaCSP.Enabled = false →
      (getEnabledScanner config cs pods).scanner = some (.trivy {} cs)) ∧
    (config.ScannerAquaCSP.Enabled = true ∧ config.ScannerTrivy.Enabled = false →
      (getEnabledScanner config cs pods).scanner
        = some (.aquaCSP versionInfo config {} pods)) ∧
    ((getEnabledScanner config cs pods).scanner = some (.trivy {} cs) ∨
      (getEnabledScanner config cs pods).scanner
        = some (.aquaCSP versionInfo config {} pods)) := by
  rcases config with ⟨o, ⟨a, v⟩, ⟨b, v'⟩, r⟩
  cases a <;> cases b <;> simp_all [getEnabledScanner, enabledCount]

/-- Witness for C3: the sample configuration with only Aqua CSP enabled. -/
theorem getEnabledScanner_one_enabled_witness :
    enabledCount (sampleConfig false true) = 1 ∧
    (getEnabledScanner (sampleConfig false true) ⟨7⟩ ⟨⟨7⟩⟩).scanner
      = some (.aquaCSP versionInfo (sampleConfig false true) {} ⟨⟨7⟩⟩) :=
  ⟨by decide,
    (getEnabledScanner_one_enabled (sampleConfig false true) ⟨7⟩ ⟨⟨7⟩⟩ (by decide)).2.2.2.1
      ⟨rfl, rfl⟩⟩

/-- C7: with both backends enabled the result is a nil scanner and the error
"invalid configuration: multiple vulnerability scanners enabled" (so Trivy is not
selected although it is enabled); with neither enabled it is a nil scanner and the
error "invalid configuration: none vulnerability scanner enabled"; the two texts
differ. -/
theorem getEnabledScanner_conflict (config : Config) (cs : Clientset) (pods : PodManager) :
    (config.ScannerTrivy.Enabled = true ∧ config.ScannerAquaCSP.Enabled = true →
      (getEnabledScanner config cs pods).scanner = none ∧
      (getEnabledScanner config cs pods).err
        = some (.new "invalid configuration: multiple vulnerability scanners enabled") ∧
      (getEnabledScanner config cs pods).scanner ≠ some (.trivy {} cs)) ∧
    (config.ScannerTrivy.Enabled = false ∧ config.ScannerAquaCSP.Enabled = false →
      (getEnabledScanner config cs pods).scanner = none ∧
      (getEnabledScanner config cs pods).err
        = some (.new "invalid configuration: none vulnerability scanner enabled")) ∧
    (GoError.new "invalid configuration: multiple vulnerability scanners enabled").text
      ≠ (GoError.new "invalid configuration: none vulnerability scanner enabled").text := by
  rcases config with ⟨o, ⟨a, v⟩, ⟨b, v'⟩, r⟩
  refine ⟨?_, ?_, by decide⟩
  · rintro ⟨rfl, rfl⟩
    simp [getEnabledScanner]
  · rintro ⟨rfl, rfl⟩
    simp [getEnabledScanner]

/-- Witness for C7: both samples, both enabled and none enabled. -/
theorem getEnabledScanner_conflict_witness :
    ((getEnabledScanner (sampleConfig true true) ⟨7⟩ ⟨⟨7⟩⟩).scanner = none ∧
      (getEnabledScanner (sampleConfig true true) ⟨7⟩ ⟨⟨7⟩⟩).err
        = some (.new "invalid configuration: multiple vulnerability scanners enabled") ∧
      (getEnabledScanner (sampleConfig true true) ⟨7⟩ ⟨⟨7⟩⟩).scanner
        ≠ some (.trivy {} ⟨7⟩)) ∧
    ((getEnabledScanner (sampleConfig false false) ⟨7⟩ ⟨⟨7⟩⟩).scanner = none ∧
      (getEnabledScanner (sampleConfig false false) ⟨7⟩ ⟨⟨7⟩⟩).err
        = some (.new "invalid configuration: none vulnerability scanner enabled")) :=
  ⟨(getEnabledScanner_conflict (sampleConfig true true) ⟨7⟩ ⟨⟨7⟩⟩).1 ⟨rfl, rfl⟩,
    (getEnabledScanner_conflict (sampleConfig false false) ⟨7⟩ ⟨⟨7⟩⟩).2.1 ⟨rfl, rfl⟩⟩

/-- C9: for no configuration, clientset and pod manager does `getEnabledScanner`
return the error "invalid configuration: unhandled vulnerability scanners config":
one of the four checks before the final return always fires. -/
theorem getEnabledScanner_fallback_unreachable (config : Config) (cs : Clientset)
    (pods : PodManager) :
    (getEnabledScanner config cs pods).err
        ≠ some (.new "invalid configuration: unhandled vulnerability scanners config") ∧
    ((config.ScannerTrivy.Enabled && config.ScannerAquaCSP.Enabled) = true ∨
      (!config.ScannerTrivy.Enabled && !config.ScannerAquaCSP.Enabled) = true ∨
      config.ScannerTrivy.Enabled = true ∨ config.ScannerAquaCSP.Enabled = true) := by
  rcases config with ⟨o, ⟨a, v⟩, ⟨b, v'⟩, r⟩
  cases a <;> cases b <;> simp [getEnabledScanner]

/-! ## Theorems: run -/

/-- The counterexample to C2 as stated: with both backends enabled and no
Kubernetes configuration to be had, the process ends inside `ctrl.GetConfigOrDie`
and `run` returns nothing, error or otherwise. -/
theorem run_conflict_may_exit :
    (sampleWorld (sampleConfig true true) none).getConfig = .ok (sampleConfig true true) ∧
    (sampleConfig true true).ScannerTrivy.Enabled = true ∧
    (sampleConfig true true).ScannerAquaCSP.Enabled = true ∧
    (run (sampleWorld (sampleConfig true true) none)).result = .exited ∧
    ¬ ∃ err, (run (sampleWorld (sampleConfig true true) none)).result = .returned err := by
  refine ⟨rfl, rfl, rfl, rfl, ?_⟩
  rintro ⟨err, h⟩
  simp [run, sampleWorld] at h

/-- C2, amended: when the loaded configuration enables both backends or neither,
`run` returns an error if `ctrl.GetConfigOrDie` returns (the error of
`getEnabledScanner` once the clientset is built) and the process exits inside it
otherwise; either way no step creates the manager or the report store, sets up a
reconciler or starts the manager. -/
theorem run_conflict_stops_early (w : World) (config : Config)
    (hc : w.getConfig = .ok config)
    (hbad : config.ScannerTrivy.Enabled = config.ScannerAquaCSP.Enabled) :
    (w.getConfigOrDie ≠ none → ∃ e, (run w).result = .returned (some e)) ∧
    (w.getConfigOrDie = none → (run w).result = .exited) ∧
    (∀ kc cs, w.getConfigOrDie = some kc → w.newForConfig kc = .ok cs →
      (run w).result = .returned (getEnabledScanner config cs (NewPodManager cs)).err) ∧
    (∀ s ∈ (run w).trace, s.usesManager = false) := by
  have herr : ∀ cs pods, ∃ e, getEnabledScanner config cs pods
      = ⟨none, some e, []⟩ := by
    intro cs pods
    rcases config with ⟨o, ⟨a, v⟩, ⟨b, v'⟩, r⟩
    cases a <;> cases b <;> simp_all [getEnabledScanner]
  cases h2 : w.getConfigOrDie with
  | none => simp [run, hc, h2, Step.usesManager]
  | some kc =>
    cases h3 : w.newForConfig kc with
    | error e =>
      simp only [run, hc, h2, h3]
      refine ⟨fun _ => ⟨e, rfl⟩, fun h => absurd h (by simp), ?_, ?_⟩
      · intro kc' cs hk hcs
        cases hk
        rw [h3] at hcs
        cases hcs
      · simp [Step.usesManager]
    | ok cs =>
      obtain ⟨e, he⟩ := herr cs (NewPodManager cs)
      simp only [run, hc, h2, h3, he]
      refine ⟨fun _ => ⟨e, rfl⟩, fun h => absurd h (by simp), ?_, ?_⟩
      · intro kc' cs' hk hcs
        cases hk
        rw [h3] at hcs
        cases hcs
        rw [he]
      · simp [Step.usesManager]

/-- Witness for C2, amended: both backends enabled, a Kubernetes configuration at
hand. -/
theorem run_conflict_stops_early_witness :
    (∃ e, (run (sampleWorld (sampleConfig true true) (some ⟨"k8s"⟩))).result
      = .returned (some e)) ∧
    (∀ s ∈ (run (sampleWorld (sampleConfig true true) (some ⟨"k8s"⟩))).trace,
      s.usesManager = false) :=
  ⟨(run_conflict_stops_early (sampleWorld (sampleConfig true true) (some ⟨"k8s"⟩))
      (sampleConfig true true) rfl rfl).1 (by simp [sampleWorld]),
    (run_conflict_stops_early (sampleWorld (sampleConfig true true) (some ⟨"k8s"⟩))
      (sampleConfig true true) rfl rfl).2.2.2⟩

/-- With a nil error `getEnabledScanner` returns a scanner. -/
theorem getEnabledScanner_scanner_of_ok (config : Config) (cs : Clientset) (pods : PodManager)
    (h : (getEnabledScanner config cs pods).err = none) :
    (getEnabledScanner config cs pods).scanner ≠ none := by
  rcases config with ⟨o, ⟨a, v⟩, ⟨b, v'⟩, r⟩
  cases a <;> cases b <;> simp_all [getEnabledScanner]

/-- The execution when the configuration does not load. -/
theorem run_of_config_error (w : World) (e : GoError) (h : w.getConfig = .error e) :
    run w = ⟨[.loadConfig], .returned (some e)⟩ := by
  simp [run, h]

/-- The execution when `ctrl.GetConfigOrDie` ends the process. -/
theorem run_of_exit (w : World) (config : Config) (h : w.getConfig = .ok config)
    (hk : w.getConfigOrDie = none) :
    run w = ⟨[.loadConfig, .getKubeConfig], .exited⟩ := by
  simp [run, h, hk]

/-- The execution when the clientset cannot be built. -/
theorem run_of_clientset_error (w : World) (config : Config) (kc : RestConfig) (e : GoError)
    (h : w.getConfig = .ok config) (hk : w.getConfigOrDie = some kc)
    (hc : w.newForConfig kc = .error e) :
    run w = ⟨[.loadConfig, .getKubeConfig, .newClientset kc], .returned (some e)⟩ := by
  simp [run, h, hk, hc]

/-- The execution when `getEnabledScanner` returns an error. -/
theorem run_of_scanner_error (w : World) (config : Config) (kc : RestConfig) (cs : Clientset)
    (e : GoError) (h : w.reachesScanner config kc cs)
    (he : (getEnabledScanner config cs (NewPodManager cs)).err = some e) :
    run w = ⟨traceScanner config kc cs, .returned (some e)⟩ := by
  obtain ⟨h1, h2, h3⟩ := h
  simp [run, h1, h2, h3, he, traceScanner]

/-- The execution when `ctrl.NewManager` returns an error. -/
theorem run_of_manager_error (w : World) (config : Config) (kc : RestConfig) (cs : Clientset)
    (e : GoError) (h : w.reachesManager config kc cs)
    (he : w.newManager kc scheme = .error e) :
    run w = ⟨traceScanner config kc cs ++ [.newManager kc scheme],
      .returned (some (.wrapf "unable to start manager" e))⟩ := by
  obtain ⟨⟨h1, h2, h3⟩, h4⟩ := h
  simp [run, h1, h2, h3, h4, he, traceScanner]

/-- The execution when the set-up of the pod reconciler returns an error. -/
theorem run_of_podSetup_error (w : World) (config : Config) (kc : RestConfig)
    (cs : Clientset) (m : Manager) (e : GoError) (h : w.reachesPodSetup config kc cs m)
    (he : w.podSetupWithManager
      (podReconcilerOf config m (getEnabledScanner config cs (NewPodManager cs)).scanner) m
      = some e) :
    run w = ⟨tracePodSetup config kc cs m,
      .returned (some (.wrapf "unable to create pod controller" e))⟩ := by
  obtain ⟨⟨⟨h1, h2, h3⟩, h4⟩, h5⟩ := h
  simp only [podReconcilerOf] at he
  simp [run, h1, h2, h3, h4, h5, he, traceScanner, tracePodSetup, podReconcilerOf]

/-- The execution when the set-up of the job reconciler returns an error. -/
theorem run_of_jobSetup_error (w : World) (config : Config) (kc : RestConfig)
    (cs : Clientset) (m : Manager) (e : GoError) (h : w.reachesJobSetup config kc cs m)
    (he : w.jobSetupWithManager
      (jobReconcilerOf config m (getEnabledScanner config cs (NewPodManager cs)).scanner
        (NewPodManager cs)) m = some e) :
    run w = ⟨traceJobSetup config kc cs m,
      .returned (some (.wrapf "unable to create job controller" e))⟩ := by
  obtain ⟨⟨⟨⟨h1, h2, h3⟩, h4⟩, h5⟩, h6⟩ := h
  simp only [podReconcilerOf] at h6
  simp only [jobReconcilerOf] at he
  simp [run, h1, h2, h3, h4, h5, h6, he, traceScanner, tracePodSetup, traceJobSetup,
    podReconcilerOf, jobReconcilerOf]

/-- The execution when both reconcilers are set up: `mgr.Start` is called and
decides the end. -/
theorem run_of_start (w : World) (config : Config) (kc : RestConfig) (cs : Clientset)
    (m : Manager) (h : w.reachesStart config kc cs m) :
    run w = ⟨traceStart config kc cs m, startResult (w.start m)⟩ := by
  obtain ⟨⟨⟨⟨⟨h1, h2, h3⟩, h4⟩, h5⟩, h6⟩, h7⟩ := h
  simp only [podReconcilerOf] at h6
  simp only [jobReconcilerOf] at h7
  cases hs : w.start m with
  | blocks =>
    simp [run, h1, h2, h3, h4, h5, h6, h7, hs, traceScanner, tracePodSetup, traceJobSetup,
      traceStart, podReconcilerOf, jobReconcilerOf, startResult]
  | returns r =>
    cases r <;>
    simp [run, h1, h2, h3, h4, h5, h6, h7, hs, traceScanner, tracePodSetup, traceJobSetup,
      traceStart, podReconcilerOf, jobReconcilerOf, startResult]

/-- The answers of a world fall in one of eight cases, by the first step that
fails. -/
theorem World.firstFailure (w : World) :
    (∃ e, w.getConfig = .error e) ∨
    (∃ config, w.getConfig = .ok config ∧ w.getConfigOrDie = none) ∨
    (∃ config kc e, w.getConfig = .ok config ∧ w.getConfigOrDie = some kc ∧
      w.newForConfig kc = .error e) ∨
    (∃ config kc cs e, w.reachesScanner config kc cs ∧
      (getEnabledScanner config cs (NewPodManager cs)).err = some e) ∨
    (∃ config kc cs e, w.reachesManager config kc cs ∧ w.newManager kc scheme = .error e) ∨
    (∃ config kc cs m e, w.reachesPodSetup config kc cs m ∧
      w.podSetupWithManager
        (podReconcilerOf config m (getEnabledScanner config cs (NewPodManager cs)).scanner) m
        = some e) ∨
    (∃ config kc cs m e, w.reachesJobSetup config kc cs m ∧
      w.jobSetupWithManager
        (jobReconcilerOf config m (getEnabledScanner config cs (NewPodManager cs)).scanner
          (NewPodManager cs)) m = some e) ∨
    (∃ config kc cs m, w.reachesStart config kc cs m) := by
  cases h1 : w.getConfig with
  | error e => exact Or.inl ⟨e, rfl⟩
  | ok config =>
    right
    cases h2 : w.getConfigOrDie with
    | none => exact Or.inl ⟨config, rfl, rfl⟩
    | some kc =>
      right
      cases h3 : w.newForConfig kc with
      | error e => exact Or.inl ⟨config, kc, e, rfl, rfl, h3⟩
      | ok cs =>
        right
        have hs : w.reachesScanner config kc cs := ⟨h1, h2, h3⟩
        cases h4 : (getEnabledScanner config cs (NewPodManager cs)).err with
        | some e => exact Or.inl ⟨config, kc, cs, e, hs, h4⟩
        | none =>
          right
          cases h5 : w.newManager kc scheme with
          | error e => exact Or.inl ⟨config, kc, cs, e, ⟨hs, h4⟩, h5⟩
          | ok m =>
            right
            cases h6 : w.podSetupWithManager (podReconcilerOf config m
                (getEnabledScanner config cs (NewPodManager cs)).scanner) m with
            | some e => exact Or.inl ⟨config, kc, cs, m, e, ⟨⟨hs, h4⟩, h5⟩, h6⟩
            | none =>
              right
              cases h7 : w.jobSetupWithManager (jobReconcilerOf config m
                  (getEnabledScanner config cs (NewPodManager cs)).scanner
                  (NewPodManager cs)) m with
              | some e => exact Or.inl ⟨config, kc, cs, m, e, ⟨⟨⟨hs, h4⟩, h5⟩, h6⟩, h7⟩
              | none => exact Or.inr ⟨config, kc, cs, m, ⟨⟨⟨hs, h4⟩, h5⟩, h6⟩, h7⟩

/-- Log lines are not calls of `getEnabledScanner`, not the construction of the
store and not a reconciler set-up. -/
theorem filter_log (l : List LogLine) :
    List.filter (Step.isSelectScanner ∘ Step.log) l = [] ∧
    List.filter (Step.isNewStore ∘ Step.log) l = [] ∧
    List.filter (Step.isSetup ∘ Step.log) l = [] := by
  refine ⟨?_, ?_, ?_⟩ <;>
    exact List.filter_eq_nil_iff.2 (fun a _ => by
      simp [Step.isSelectScanner, Step.isNewStore, Step.isSetup])

/-- Once both reconcilers are set up the trace of `run` is the full one. -/
theorem trace_of_reachesStart (w : World) (config : Config) (kc : RestConfig)
    (cs : Clientset) (m : Manager) (h : w.reachesStart config kc cs m) :
    (run w).trace = traceStart config kc cs m := by
  rw [run_of_start w config kc cs m h]

/-- Once the pod reconciler is set up the trace of `run` ends at the job set-up or
at Start. -/
theorem trace_of_reachesJobSetup (w : World) (config : Config) (kc : RestConfig)
    (cs : Clientset) (m : Manager) (h : w.reachesJobSetup config kc cs m) :
    (run w).trace = traceJobSetup config kc cs m ∨
    (run w).trace = traceStart config kc cs m := by
  cases h7 : w.jobSetupWithManager (jobReconcilerOf config m
      (getEnabledScanner config cs (NewPodManager cs)).scanner (NewPodManager cs)) m with
  | some e => exact Or.inl (by rw [run_of_jobSetup_error w config kc cs m e h h7])
  | none => exact Or.inr (trace_of_reachesStart w config kc cs m ⟨h, h7⟩)

/-- Once the manager is created the trace of `run` ends at the pod set-up, at the
job set-up or at Start. -/
theorem trace_of_reachesPodSetup (w : World) (config : Config) (kc : RestConfig)
    (cs : Clientset) (m : Manager) (h : w.reachesPodSetup config kc cs m) :
    (run w).trace = tracePodSetup config kc cs m ∨
    (run w).trace = traceJobSetup config kc cs m ∨
    (run w).trace = traceStart config kc cs m := by
  cases h6 : w.podSetupWithManager (podReconcilerOf config m
      (getEnabledScanner config cs (NewPodManager cs)).scanner) m with
  | some e => exact Or.inl (by rw [run_of_podSetup_error w config kc cs m e h h6])
  | none => exact Or.inr (trace_of_reachesJobSetup w config kc cs m ⟨h, h6⟩)

/-- Once the clientset is built the trace of `run` ends at one of the five later
steps. -/
theorem trace_of_reachesScanner (w : World) (config : Config) (kc : RestConfig)
    (cs : Clientset) (h : w.reachesScanner config kc cs) :
    (run w).trace = traceScanner config kc cs ∨
    (run w).trace = traceScanner config kc cs ++ [.newManager kc scheme] ∨
    ∃ m, (run w).trace = tracePodSetup config kc cs m ∨
      (run w).trace = traceJobSetup config kc cs m ∨
      (run w).trace = traceStart config kc cs m := by
  cases h4 : (getEnabledScanner config cs (NewPodManager cs)).err with
  | some e => exact Or.inl (by rw [run_of_scanner_error w config kc cs e h h4])
  | none =>
    cases h5 : w.newManager kc scheme with
    | error e => exact Or.inr (Or.inl (by rw [run_of_manager_error w config kc cs e ⟨h, h4⟩ h5]))
    | ok m => exact Or.inr (Or.inr ⟨m, trace_of_reachesPodSetup w config kc cs m ⟨⟨h, h4⟩, h5⟩⟩)

/-- The calls of `getEnabledScanner`, the store constructions and the reconciler
set-ups in each of the traces. -/
theorem filter_traces (config : Config) (kc : RestConfig) (cs : Clientset) (m : Manager) :
    ((traceScanner config kc cs).filter Step.isSelectScanner
        = [.selectScanner config cs (NewPodManager cs)] ∧
      (traceScanner config kc cs).filter Step.isNewStore = [] ∧
      (traceScanner config kc cs).filter Step.isSetup = []) ∧
    ((tracePodSetup config kc cs m).filter Step.isSelectScanner
        = [.selectScanner config cs (NewPodManager cs)] ∧
      (tracePodSetup config kc cs m).filter Step.isNewStore
        = [.newStore m.GetClient scheme] ∧
      (tracePodSetup config kc cs m).filter Step.isSetup
        = [.setupPod (podReconcilerOf config m
            (getEnabledScanner config cs (NewPodManager cs)).scanner) m]) ∧
    ((traceJobSetup config kc cs m).filter Step.isSelectScanner
        = [.selectScanner config cs (NewPodManager cs)] ∧
      (traceJobSetup config kc cs m).filter Step.isNewStore
        = [.newStore m.GetClient scheme] ∧
      (traceJobSetup config kc cs m).filter Step.isSetup
        = [.setupPod (podReconcilerOf config m
            (getEnabledScanner config cs (NewPodManager cs)).scanner) m,
          .setupJob (jobReconcilerOf config m
            (getEnabledScanner config cs (NewPodManager cs)).scanner (NewPodManager cs)) m]) ∧
    ((traceStart config kc cs m).filter Step.isSelectScanner
        = [.selectScanner config cs (NewPodManager cs)] ∧
      (traceStart config kc cs m).filter Step.isNewStore
        = [.newStore m.GetClient scheme] ∧
      (traceStart config kc cs m).filter Step.isSetup
        = [.setupPod (podReconcilerOf config m
            (getEnabledScanner config cs (NewPodManager cs)).scanner) m,
          .setupJob (jobReconcilerOf config m
            (getEnabledScanner config cs (NewPodManager cs)).scanner (NewPodManager cs)) m]) := by
  have hl := filter_log (getEnabledScanner config cs (NewPodManager cs)).logged
  simp [traceStart, traceJobSetup, tracePodSetup, traceScanner, List.filter_append,
    List.filter_cons, List.filter_map, hl, Step.isSelectScanner, Step.isNewStore,
    Step.isSetup]

/-- The trace of `run` ends before the clientset is built or the world takes `run`
as far as `getEnabledScanner`. -/
theorem trace_cases (w : World) :
    (run w).trace = [.loadConfig] ∨
    (run w).trace = [.loadConfig, .getKubeConfig] ∨
    (∃ kc, (run w).trace = [.loadConfig, .getKubeConfig, .newClientset kc]) ∨
    ∃ config kc cs, w.reachesScanner config kc cs := by
  rcases w.firstFailure with ⟨e, h⟩ | ⟨config, h, hk⟩ | ⟨config, kc, e, h, hk, hc⟩ |
    ⟨config, kc, cs, e, h, -⟩ | ⟨config, kc, cs, e, h, -⟩ | ⟨config, kc, cs, m, e, h, -⟩ |
    ⟨config, kc, cs, m, e, h, -⟩ | ⟨config, kc, cs, m, h⟩
  · exact Or.inl (by rw [run_of_config_error w e h])
  · exact Or.inr (Or.inl (by rw [run_of_exit w config h hk]))
  · exact Or.inr (Or.inr (Or.inl ⟨kc, by rw [run_of_clientset_error w config kc e h hk hc]⟩))
  · exact Or.inr (Or.inr (Or.inr ⟨config, kc, cs, h⟩))
  · exact Or.inr (Or.inr (Or.inr ⟨config, kc, cs, h.1⟩))
  · exact Or.inr (Or.inr (Or.inr ⟨config, kc, cs, h.1.1⟩))
  · exact Or.inr (Or.inr (Or.inr ⟨config, kc, cs, h.1.1.1⟩))
  · exact Or.inr (Or.inr (Or.inr ⟨config, kc, cs, h.1.1.1.1⟩))

/-- Whenever the clientset is built `getEnabledScanner` is called once, on the
loaded configuration. -/
theorem select_of_reachesScanner (w : World) (config : Config) (kc : RestConfig)
    (cs : Clientset) (h : w.reachesScanner config kc cs) :
    (run w).trace.filter Step.isSelectScanner
      = [.selectScanner config cs (NewPodManager cs)] := by
  have hl := filter_log (getEnabledScanner config cs (NewPodManager cs)).logged
  rcases trace_of_reachesScanner w config kc cs h with ht | ht | ⟨m, ht | ht | ht⟩
  · rw [ht]; exact (filter_traces config kc cs ⟨⟨0⟩, scheme⟩).1.1
  · rw [ht, List.filter_append, (filter_traces config kc cs ⟨⟨0⟩, scheme⟩).1.1]
    simp [Step.isSelectScanner]
  · rw [ht]; exact (filter_traces config kc cs m).2.1.1
  · rw [ht]; exact (filter_traces config kc cs m).2.2.1.1
  · rw [ht]; exact (filter_traces config kc cs m).2.2.2.1

/-- The store constructions and reconciler set-ups of an execution: none, or those
of a world that takes `run` as far as the pod set-up. -/
theorem setups_of_trace (w : World) :
    ((run w).trace.filter Step.isNewStore = [] ∧ (run w).trace.filter Step.isSetup = []) ∨
    ∃ config kc cs m, w.reachesPodSetup config kc cs m ∧
      (run w).trace.filter Step.isNewStore = [.newStore m.GetClient scheme] ∧
      ((run w).trace.filter Step.isSetup
          = [.setupPod (podReconcilerOf config m
              (getEnabledScanner config cs (NewPodManager cs)).scanner) m] ∨
        (run w).trace.filter Step.isSetup
          = [.setupPod (podReconcilerOf config m
              (getEnabledScanner config cs (NewPodManager cs)).scanner) m,
            .setupJob (jobReconcilerOf config m
              (getEnabledScanner config cs (NewPodManager cs)).scanner (NewPodManager cs))
              m]) := by
  rcases w.firstFailure with ⟨e, h⟩ | ⟨config, h, hk⟩ | ⟨config, kc, e, h, hk, hc⟩ |
    ⟨config, kc, cs, e, h, he⟩ | ⟨config, kc, cs, e, h, he⟩ | ⟨config, kc, cs, m, e, h, he⟩ |
    ⟨config, kc, cs, m, e, h, he⟩ | ⟨config, kc, cs, m, h⟩
  · left; rw [run_of_config_error w e h]; simp [Step.isNewStore, Step.isSetup]
  · left; rw [run_of_exit w config h hk]; simp [Step.isNewStore, Step.isSetup]
  · left; rw [run_of_clientset_error w config kc e h hk hc]
    simp [Step.isNewStore, Step.isSetup]
  · left; rw [run_of_scanner_error w config kc cs e h he]
    exact (filter_traces config kc cs ⟨⟨0⟩, scheme⟩).1.2
  · left; rw [run_of_manager_error w config kc cs e h he]
    simp only [List.filter_append, (filter_traces config kc cs ⟨⟨0⟩, scheme⟩).1.2]
    simp [Step.isNewStore, Step.isSetup]
  · right; refine ⟨config, kc, cs, m, h, ?_⟩
    rw [run_of_podSetup_error w config kc cs m e h he]
    exact ⟨(filter_traces config kc cs m).2.1.2.1, Or.inl (filter_traces config kc cs m).2.1.2.2⟩
  · right; refine ⟨config, kc, cs, m, h.1, ?_⟩
    rw [run_of_jobSetup_error w config kc cs m e h he]
    exact ⟨(filter_traces config kc cs m).2.2.1.2.1,
      Or.inr (filter_traces config kc cs m).2.2.1.2.2⟩
  · right; refine ⟨config, kc, cs, m, h.1.1, ?_⟩
    rw [run_of_start w config kc cs m h]
    exact ⟨(filter_traces config kc cs m).2.2.2.2.1,
      Or.inr (filter_traces config kc cs m).2.2.2.2.2⟩

/-- The reconcilers found in a trace are those `run` builds from the loaded
configuration, the manager and the selected scanner. -/
theorem setup_mem (w : World) :
    ((∃ r m, Step.setupPod r m ∈ (run w).trace) ∨ (∃ r m, Step.setupJob r m ∈ (run w).trace) →
      ∃ config kc cs m, w.reachesPodSetup config kc cs m ∧
        (∀ r m', Step.setupPod r m' ∈ (run w).trace →
          r = podReconcilerOf config m
            (getEnabledScanner config cs (NewPodManager cs)).scanner ∧ m' = m) ∧
        (∀ r m', Step.setupJob r m' ∈ (run w).trace →
          r = jobReconcilerOf config m
            (getEnabledScanner config cs (NewPodManager cs)).scanner (NewPodManager cs)
            ∧ m' = m)) := by
  intro hex
  have hpod : ∀ r m', Step.setupPod r m' ∈ (run w).trace →
      Step.setupPod r m' ∈ (run w).trace.filter Step.isSetup :=
    fun r m' h => List.mem_filter.2 ⟨h, rfl⟩
  have hjob : ∀ r m', Step.setupJob r m' ∈ (run w).trace →
      Step.setupJob r m' ∈ (run w).trace.filter Step.isSetup :=
    fun r m' h => List.mem_filter.2 ⟨h, rfl⟩
  rcases setups_of_trace w with ⟨-, hnil⟩ | ⟨config, kc, cs, m, h, -, hf | hf⟩
  · rcases hex with ⟨r, m, hm⟩ | ⟨r, m, hm⟩
    · have := hpod r m hm
      rw [hnil] at this
      exact absurd this (List.not_mem_nil _)
    · have := hjob r m hm
      rw [hnil] at this
      exact absurd this (List.not_mem_nil _)
  · refine ⟨config, kc, cs, m, h, ?_, ?_⟩
    · intro r m' hm
      have := hpod r m' hm
      rw [hf] at this
      simpa using this
    · intro r m' hm
      have := hjob r m' hm
      rw [hf] at this
      simp at this
  · refine ⟨config, kc, cs, m, h, ?_, ?_⟩
    · intro r m' hm
      have := hpod r m' hm
      rw [hf] at this
      simpa using this
    · intro r m' hm
      have := hjob r m' hm
      rw [hf] at this
      simpa using this

/-- C4: `getEnabledScanner` is called at most once in every execution of `run`, and
exactly once, on the loaded configuration, whenever the clientset is built; when
the manager is created the report store is constructed once and the pod
reconciler is handed to the manager with the scanner that call returned (not nil)
and that store; when the pod set-up succeeds the job reconciler is handed over
with the same scanner and the same store; and any reconciler found in a trace
carries that scanner and that store. -/
theorem run_selects_scanner_once (w : World) :
    ((run w).trace.filter Step.isSelectScanner).length ≤ 1 ∧
    ((run w).trace.filter Step.isNewStore).length ≤ 1 ∧
    (∀ config kc cs, w.reachesScanner config kc cs →
      (run w).trace.filter Step.isSelectScanner
        = [.selectScanner config cs (NewPodManager cs)]) ∧
    (∀ config kc cs m, w.reachesPodSetup config kc cs m →
      (getEnabledScanner config cs (NewPodManager cs)).scanner ≠ none ∧
      (run w).trace.filter Step.isNewStore = [.newStore m.GetClient scheme] ∧
      Step.setupPod
        (podReconcilerOf config m (getEnabledScanner config cs (NewPodManager cs)).scanner)
        m ∈ (run w).trace) ∧
    (∀ config kc cs m, w.reachesJobSetup config kc cs m →
      (run w).trace.filter Step.isSetup
        = [.setupPod
            (podReconcilerOf config m (getEnabledScanner config cs (NewPodManager cs)).scanner)
            m,
          .setupJob
            (jobReconcilerOf config m (getEnabledScanner config cs (NewPodManager cs)).scanner
              (NewPodManager cs)) m]) ∧
    (∀ config m sc pods,
      (podReconcilerOf config m sc).Scanner = sc ∧
      (jobReconcilerOf config m sc pods).Scanner = sc ∧
      (podReconcilerOf config m sc).Store = NewStore m.GetClient scheme ∧
      (jobReconcilerOf config m sc pods).Store = NewStore m.GetClient scheme) ∧
    (∀ r m, Step.setupPod r m ∈ (run w).trace →
      ∃ config cs, w.getConfig = .ok config ∧
        Step.selectScanner config cs (NewPodManager cs) ∈ (run w).trace ∧
        r.Scanner = (getEnabledScanner config cs (NewPodManager cs)).scanner ∧
        r.Store = NewStore m.GetClient scheme) ∧
    (∀ r m, Step.setupJob r m ∈ (run w).trace →
      ∃ config cs, w.getConfig = .ok config ∧
        Step.selectScanner config cs (NewPodManager cs) ∈ (run w).trace ∧
        r.Scanner = (getEnabledScanner config cs (NewPodManager cs)).scanner ∧
        r.Store = NewStore m.GetClient scheme) ∧
    (∀ rp mp rj mj, Step.setupPod rp mp ∈ (run w).trace →
      Step.setupJob rj mj ∈ (run w).trace →
      rp.Scanner = rj.Scanner ∧ rp.Store = rj.Store) := by
  have hsel : ∀ config kc cs, w.reachesScanner config kc cs →
      Step.selectScanner config cs (NewPodManager cs) ∈ (run w).trace := by
    intro config kc cs h
    have := select_of_reachesScanner w config kc cs h
    exact List.mem_of_mem_filter (by rw [this]; exact List.mem_singleton.2 rfl)
  refine ⟨?_, ?_, select_of_reachesScanner w, ?_, ?_, ?_, ?_, ?_, ?_⟩
  · rcases trace_cases w with h | h | ⟨kc, h⟩ | ⟨config, kc, cs, h⟩
    · rw [h]; simp [Step.isSelectScanner]
    · rw [h]; simp [Step.isSelectScanner]
    · rw [h]; simp [Step.isSelectScanner]
    · rw [select_of_reachesScanner w config kc cs h]; simp
  · rcases setups_of_trace w with ⟨h, -⟩ | ⟨config, kc, cs, m, -, h, -⟩
    · rw [h]; simp
    · rw [h]; simp
  · intro config kc cs m h
    refine ⟨getEnabledScanner_scanner_of_ok _ _ _ h.1.2, ?_, ?_⟩
    · rcases trace_of_reachesPodSetup w config kc cs m h with ht | ht | ht
      · rw [ht]; exact (filter_traces config kc cs m).2.1.2.1
      · rw [ht]; exact (filter_traces config kc cs m).2.2.1.2.1
      · rw [ht]; exact (filter_traces config kc cs m).2.2.2.2.1
    · apply List.mem_of_mem_filter (p := Step.isSetup)
      rcases trace_of_reachesPodSetup w config kc cs m h with ht | ht | ht
      · rw [ht, (filter_traces config kc cs m).2.1.2.2]; simp
      · rw [ht, (filter_traces config kc cs m).2.2.1.2.2]; simp
      · rw [ht, (filter_traces config kc cs m).2.2.2.2.2]; simp
  · intro config kc cs m h
    rcases trace_of_reachesJobSetup w config kc cs m h with ht | ht
    · rw [ht]; exact (filter_traces config kc cs m).2.2.1.2.2
    · rw [ht]; exact (filter_traces config kc cs m).2.2.2.2.2
  · intro config m sc pods
    exact ⟨rfl, rfl, rfl, rfl⟩
  · intro r m hm
    obtain ⟨config, kc, cs, m', h, hp, -⟩ := setup_mem w (Or.inl ⟨r, m, hm⟩)
    obtain ⟨rfl, rfl⟩ := hp r m hm
    exact ⟨config, cs, h.1.1.1, hsel config kc cs h.1.1, rfl, rfl⟩
  · intro r m hm
    obtain ⟨config, kc, cs, m', h, -, hj⟩ := setup_mem w (Or.inr ⟨r, m, hm⟩)
    obtain ⟨rfl, rfl⟩ := hj r m hm
    exact ⟨config, cs, h.1.1.1, hsel config kc cs h.1.1, rfl, rfl⟩
  · intro rp mp rj mj hp hj
    obtain ⟨config, kc, cs, m', h, hp', hj'⟩ := setup_mem w (Or.inl ⟨rp, mp, hp⟩)
    obtain ⟨rfl, rfl⟩ := hp' rp mp hp
    obtain ⟨rfl, -⟩ := hj' rj mj hj
    exact ⟨rfl, rfl⟩

/-- Witness for C4: with only Trivy enabled and every collaborator answering well,
both reconcilers are handed to the manager, with the Trivy scanner built from the
clientset. -/
theorem run_selects_scanner_once_witness :
    (run (sampleWorld (sampleConfig true false) (some ⟨"k8s"⟩))).trace.filter Step.isSetup
      = [.setupPod (podReconcilerOf (sampleConfig true false) ⟨⟨2⟩, scheme⟩
            (some (.trivy {} ⟨1⟩))) ⟨⟨2⟩, scheme⟩,
          .setupJob (jobReconcilerOf (sampleConfig true false) ⟨⟨2⟩, scheme⟩
            (some (.trivy {} ⟨1⟩)) (NewPodManager ⟨1⟩)) ⟨⟨2⟩, scheme⟩] :=
  (run_selects_scanner_once (sampleWorld (sampleConfig true false) (some ⟨"k8s"⟩))).2.2.2.2.1
    (sampleConfig true false) ⟨"k8s"⟩ ⟨1⟩ ⟨⟨2⟩, scheme⟩ ⟨⟨⟨⟨rfl, rfl, rfl⟩, rfl⟩, rfl⟩, rfl⟩

/-- Log lines are not named steps. -/
theorem filterMap_kind_log (l : List LogLine) :
    List.filterMap (Step.kind ∘ Step.log) l = [] := by
  induction l with
  | nil => rfl
  | cons a l ih => simp [List.filterMap_cons, Step.kind]

/-- The named steps of each of the traces. -/
theorem kinds_traces (config : Config) (kc : RestConfig) (cs : Clientset) (m : Manager) :
    (traceScanner config kc cs).filterMap Step.kind = startupOrder.take 4 ∧
    (traceScanner config kc cs ++ [Step.newManager kc scheme]).filterMap Step.kind
      = startupOrder.take 5 ∧
    (tracePodSetup config kc cs m).filterMap Step.kind = startupOrder.take 6 ∧
    (traceJobSetup config kc cs m).filterMap Step.kind = startupOrder.take 7 ∧
    (traceStart config kc cs m).filterMap Step.kind = startupOrder := by
  simp [traceStart, traceJobSetup, tracePodSetup, traceScanner, List.filterMap_append,
    List.filterMap_map, filterMap_kind_log, Step.kind, startupOrder]

/-- The counterexample to C8 as stated: the configuration loads, then
`ctrl.GetConfigOrDie`, a startup step between loading the configuration and
building the clientset, fails; `run` returns no error derived from it (it returns
nothing, the process exits), and the steps performed are not an initial part of
the seven listed ones. -/
theorem run_exit_is_no_error :
    (sampleWorld (sampleConfig true false) none).getConfig = .ok (sampleConfig true false) ∧
    (sampleWorld (sampleConfig true false) none).getConfigOrDie = none ∧
    (run (sampleWorld (sampleConfig true false) none)).trace
      = [.loadConfig, .getKubeConfig] ∧
    (run (sampleWorld (sampleConfig true false) none)).result = .exited ∧
    (¬ ∃ err, (run (sampleWorld (sampleConfig true false) none)).result = .returned err) ∧
    ¬ (run (sampleWorld (sampleConfig true false) none)).kinds <+: errorSteps := by
  have h := run_of_exit (sampleWorld (sampleConfig true false) none)
    (sampleConfig true false) rfl rfl
  rw [h]
  refine ⟨rfl, rfl, rfl, rfl, ?_, ?_⟩
  · rintro ⟨err, he⟩
    cases he
  · simp [Execution.kinds, Step.kind, errorSteps, List.prefix_cons_inj]

/-- C8, amended: the named steps of `run` are an initial part of the fixed order
load config, get the Kubernetes configuration, build clientset, select scanner,
create manager, set up pod reconciler, set up job reconciler, start manager; the
first failing step is the last one performed; a failure of
`ctrl.GetConfigOrDie` ends the process and `run` returns nothing; a failure of any
other step makes `run` return that step's error, as is for configuration,
clientset and scanner selection and wrapped with the step's message for the
manager, the two reconcilers and Start; the manager is started exactly when every
earlier step succeeded; `run` returns nil exactly when Start was reached and
returned nil. -/
theorem run_short_circuits (w : World) :
    (run w).kinds <+: startupOrder ∧
    (∀ e, w.getConfig = .error e →
      (run w).result = .returned (some e) ∧ (run w).kinds = startupOrder.take 1) ∧
    (∀ config, w.getConfig = .ok config → w.getConfigOrDie = none →
      (run w).result = .exited ∧ (run w).kinds = startupOrder.take 2) ∧
    (∀ config kc e, w.getConfig = .ok config → w.getConfigOrDie = some kc →
      w.newForConfig kc = .error e →
      (run w).result = .returned (some e) ∧ (run w).kinds = startupOrder.take 3) ∧
    (∀ config kc cs e, w.reachesScanner config kc cs →
      (getEnabledScanner config cs (NewPodManager cs)).err = some e →
      (run w).result = .returned (some e) ∧ (run w).kinds = startupOrder.take 4) ∧
    (∀ config kc cs e, w.reachesManager config kc cs → w.newManager kc scheme = .error e →
      (run w).result = .returned (some (.wrapf "unable to start manager" e)) ∧
      (run w).kinds = startupOrder.take 5) ∧
    (∀ config kc cs m e, w.reachesPodSetup config kc cs m →
      w.podSetupWithManager
        (podReconcilerOf config m (getEnabledScanner config cs (NewPodManager cs)).scanner) m
        = some e →
      (run w).result = .returned (some (.wrapf "unable to create pod controller" e)) ∧
      (run w).kinds = startupOrder.take 6) ∧
    (∀ config kc cs m e, w.reachesJobSetup config kc cs m →
      w.jobSetupWithManager
        (jobReconcilerOf config m (getEnabledScanner config cs (NewPodManager cs)).scanner
          (NewPodManager cs)) m = some e →
      (run w).result = .returned (some (.wrapf "unable to create job controller" e)) ∧
      (run w).kinds = startupOrder.take 7) ∧
    (∀ config kc cs m e, w.reachesStart config kc cs m → w.start m = .returns (some e) →
      (run w).result = .returned (some (.wrapf "problem running manager" e)) ∧
      (run w).kinds = startupOrder) ∧
    (∀ config kc cs m, w.reachesStart config kc cs m → w.start m = .returns none →
      (run w).result = .returned none ∧ (run w).kinds = startupOrder) ∧
    (∀ config kc cs m, w.reachesStart config kc cs m → w.start m = .blocks →
      (run w).result = .blocked ∧ (run w).kinds = startupOrder) ∧
    ((∃ m, Step.startManager m ∈ (run w).trace) ↔
      ∃ config kc cs m, w.reachesStart config kc cs m) ∧
    ((run w).result = .returned none ↔
      ∃ config kc cs m, w.reachesStart config kc cs m ∧ w.start m = .returns none) := by
  have c1 : ∀ e, w.getConfig = .error e →
      (run w).result = .returned (some e) ∧ (run w).kinds = startupOrder.take 1 := by
    intro e h
    rw [run_of_config_error w e h]
    exact ⟨rfl, rfl⟩
  have c2 : ∀ config, w.getConfig = .ok config → w.getConfigOrDie = none →
      (run w).result = .exited ∧ (run w).kinds = startupOrder.take 2 := by
    intro config h hk
    rw [run_of_exit w config h hk]
    exact ⟨rfl, rfl⟩
  have c3 : ∀ config kc e, w.getConfig = .ok config → w.getConfigOrDie = some kc →
      w.newForConfig kc = .error e →
      (run w).result = .returned (some e) ∧ (run w).kinds = startupOrder.take 3 := by
    intro config kc e h hk hc
    rw [run_of_clientset_error w config kc e h hk hc]
    exact ⟨rfl, rfl⟩
  have c4 : ∀ config kc cs e, w.reachesScanner config kc cs →
      (getEnabledScanner config cs (NewPodManager cs)).err = some e →
      (run w).result = .returned (some e) ∧ (run w).kinds = startupOrder.take 4 := by
    intro config kc cs e h he
    rw [run_of_scanner_error w config kc cs e h he]
    exact ⟨rfl, (kinds_traces config kc cs ⟨⟨0⟩, scheme⟩).1⟩
  have c5 : ∀ config kc cs e, w.reachesManager config kc cs →
      w.newManager kc scheme = .error e →
      (run w).result = .returned (some (.wrapf "unable to start manager" e)) ∧
      (run w).kinds = startupOrder.take 5 := by
    intro config kc cs e h he
    rw [run_of_manager_error w config kc cs e h he]
    exact ⟨rfl, (kinds_traces config kc cs ⟨⟨0⟩, scheme⟩).2.1⟩
  have c6 : ∀ config kc cs m e, w.reachesPodSetup config kc cs m →
      w.podSetupWithManager
        (podReconcilerOf config m (getEnabledScanner config cs (NewPodManager cs)).scanner) m
        = some e →
      (run w).result = .returned (some (.wrapf "unable to create pod controller" e)) ∧
      (run w).kinds = startupOrder.take 6 := by
    intro config kc cs m e h he
    rw [run_of_podSetup_error w config kc cs m e h he]
    exact ⟨rfl, (kinds_traces config kc cs m).2.2.1⟩
  have c7 : ∀ config kc cs m e, w.reachesJobSetup config kc cs m →
      w.jobSetupWithManager
        (jobReconcilerOf config m (getEnabledScanner config cs (NewPodManager cs)).scanner
          (NewPodManager cs)) m = some e →
      (run w).result = .returned (some (.wrapf "unable to create job controller" e)) ∧
      (run w).kinds = startupOrder.take 7 := by
    intro config kc cs m e h he
    rw [run_of_jobSetup_error w config kc cs m e h he]
    exact ⟨rfl, (kinds_traces config kc cs m).2.2.2.1⟩
  have c8 : ∀ config kc cs m, w.reachesStart config kc cs m →
      (run w).result = startResult (w.start m) ∧ (run w).kinds = startupOrder := by
    intro config kc cs m h
    rw [run_of_start w config kc cs m h]
    exact ⟨rfl, (kinds_traces config kc cs m).2.2.2.2⟩
  refine ⟨?_, c1, c2, c3, c4, c5, c6, c7, ?_, ?_, ?_, ?_, ?_⟩
  · rcases w.firstFailure with ⟨e, h⟩ | ⟨config, h, hk⟩ | ⟨config, kc, e, h, hk, hc⟩ |
      ⟨config, kc, cs, e, h, he⟩ | ⟨config, kc, cs, e, h, he⟩ |
      ⟨config, kc, cs, m, e, h, he⟩ | ⟨config, kc, cs, m, e, h, he⟩ | ⟨config, kc, cs, m, h⟩
    · rw [(c1 e h).2]; exact List.take_prefix _ _
    · rw [(c2 config h hk).2]; exact List.take_prefix _ _
    · rw [(c3 config kc e h hk hc).2]; exact List.take_prefix _ _
    · rw [(c4 config kc cs e h he).2]; exact List.take_prefix _ _
    · rw [(c5 config kc cs e h he).2]; exact List.take_prefix _ _
    · rw [(c6 config kc cs m e h he).2]; exact List.take_prefix _ _
    · rw [(c7 config kc cs m e h he).2]; exact List.take_prefix _ _
    · rw [(c8 config kc cs m h).2]
  · intro config kc cs m e h hs
    have := c8 config kc cs m h
    rw [hs] at this
    exact this
  · intro config kc cs m h hs
    have := c8 config kc cs m h
    rw [hs] at this
    exact this
  · intro config kc cs m h hs
    have := c8 config kc cs m h
    rw [hs] at this
    exact this
  · constructor
    · rintro ⟨m', hm⟩
      have hk : StepKind.startManager ∈ (run w).kinds :=
        List.mem_filterMap.2 ⟨_, hm, rfl⟩
      rcases w.firstFailure with ⟨e, h⟩ | ⟨config, h, hk'⟩ | ⟨config, kc, e, h, hk', hc⟩ |
        ⟨config, kc, cs, e, h, he⟩ | ⟨config, kc, cs, e, h, he⟩ |
        ⟨config, kc, cs, m, e, h, he⟩ | ⟨config, kc, cs, m, e, h, he⟩ |
        ⟨config, kc, cs, m, h⟩
      · rw [(c1 e h).2] at hk; simp [startupOrder] at hk
      · rw [(c2 config h hk').2] at hk; simp [startupOrder] at hk
      · rw [(c3 config kc e h hk' hc).2] at hk; simp [startupOrder] at hk
      · rw [(c4 config kc cs e h he).2] at hk; simp [startupOrder] at hk
      · rw [(c5 config kc cs e h he).2] at hk; simp [startupOrder] at hk
      · rw [(c6 config kc cs m e h he).2] at hk; simp [startupOrder] at hk
      · rw [(c7 config kc cs m e h he).2] at hk; simp [startupOrder] at hk
      · exact ⟨config, kc, cs, m, h⟩
    · rintro ⟨config, kc, cs, m, h⟩
      refine ⟨m, ?_⟩
      rw [trace_of_reachesStart w config kc cs m h]
      simp [traceStart]
  · constructor
    · intro hr
      rcases w.firstFailure with ⟨e, h⟩ | ⟨config, h, hk'⟩ | ⟨config, kc, e, h, hk', hc⟩ |
        ⟨config, kc, cs, e, h, he⟩ | ⟨config, kc, cs, e, h, he⟩ |
        ⟨config, kc, cs, m, e, h, he⟩ | ⟨config, kc, cs, m, e, h, he⟩ |
        ⟨config, kc, cs, m, h⟩
      · rw [(c1 e h).1] at hr; cases hr
      · rw [(c2 config h hk').1] at hr; cases hr
      · rw [(c3 config kc e h hk' hc).1] at hr; cases hr
      · rw [(c4 config kc cs e h he).1] at hr; cases hr
      · rw [(c5 config kc cs e h he).1] at hr; cases hr
      · rw [(c6 config kc cs m e h he).1] at hr; cases hr
      · rw [(c7 config kc cs m e h he).1] at hr; cases hr
      · refine ⟨config, kc, cs, m, h, ?_⟩
        rw [(c8 config kc cs m h).1] at hr
        cases hs : w.start m with
        | blocks => rw [hs] at hr; cases hr
        | returns r =>
          cases r with
          | none => rfl
          | some e => rw [hs] at hr; cases hr
    · rintro ⟨config, kc, cs, m, h, hs⟩
      rw [(c8 config kc cs m h).1, hs]
      rfl

/-- Witness for C8, amended: a world that takes `run` as far as the set-up of the
pod reconciler, which fails; `run` returns that error wrapped and stops there. -/
theorem run_short_circuits_witness :
    (run podSetupFailsWorld).result
      = .returned (some (.wrapf "unable to create pod controller"
          (.new "no kind registered"))) ∧
    (run podSetupFailsWorld).kinds
      = [.loadConfig, .getKubeConfig, .buildClientset, .selectScanner, .createManager,
          .setupPod] :=
  (run_short_circuits podSetupFailsWorld).2.2.2.2.2.2.1 (sampleConfig true false) ⟨"k8s"⟩ ⟨1⟩
    ⟨⟨2⟩, scheme⟩ (.new "no kind registered") ⟨⟨⟨rfl, rfl, rfl⟩, rfl⟩, rfl⟩ rfl

end Operator

namespace Engine

/-! ## Theorems: the reconciliation engine -/

/-- The invariant holds at process start. -/
theorem inv_init : Inv State.init := by
  simp [Inv, State.init]

/-- Deleting a ScanJobRef keeps the invariant. -/
theorem inv_deleteJob (s : State) (jobName : String) (h : Inv s) :
    Inv (deleteJob s jobName) := by
  obtain ⟨h1, h2, h3⟩ := h
  have hsub : ((s.jobs.filter (fun j => j.name ≠ jobName)).map ScanJobRef.target).Sublist
      (s.jobs.map ScanJobRef.target) := List.Sublist.map _ (List.filter_sublist _)
  refine ⟨h1.sublist hsub, ?_, h3⟩
  intro d hd hmem
  exact h2 d hd (hsub.subset hmem)

/-- Creating a ScanJobRef for a target without a live one keeps the invariant. -/
theorem inv_createJob (s : State) (j : ScanJobRef) (h : Inv s)
    (hfree : j.target ∉ s.jobs.map ScanJobRef.target)
    (hother : ∀ d ∈ s.inflight, d.target ≠ j.target) : Inv (createJob s j) := by
  obtain ⟨h1, h2, h3⟩ := h
  unfold createJob
  split
  · exact ⟨h1, h2, h3⟩
  · refine ⟨?_, ?_, h3⟩
    · show (j.target :: s.jobs.map ScanJobRef.target).Nodup
      exact List.nodup_cons.2 ⟨hfree, h1⟩
    · intro d hd
      simp only [List.map_cons, List.mem_cons, not_or]
      exact ⟨hother d hd, h2 d hd⟩

/-- The end of a Start call keeps the invariant. -/
theorem inv_finishStart (hash : String → Nat) (variant : Variant) (s : State) (d : Dispatch)
    (answer : StartAnswer) (h : Inv s)
    (hfree : d.target ∉ s.jobs.map ScanJobRef.target)
    (hother : ∀ d' ∈ s.inflight, d'.target ≠ d.target) :
    Inv (finishStart hash variant s d answer) := by
  cases answer with
  | failed => exact h
  | ok output jobName =>
    cases variant with
    | sync => exact h
    | async => exact inv_createJob s _ h hfree hother

/-- The scan-job reconciler keeps the invariant. -/
theorem inv_reconcileJob (hash : String → Nat) (s : State) (j : ScanJobRef)
    (ownerExists : Bool) (fetched : Option ScanOutput) (h : Inv s) :
    Inv (reconcileJob hash s j ownerExists fetched) := by
  unfold reconcileJob
  split
  · exact inv_deleteJob s _ h
  · split
    · split
      · exact inv_deleteJob s _ h
      · split
        · exact h
        · exact inv_deleteJob _ _ h
    · exact inv_deleteJob s _ h
    · exact h

/-- Every event keeps the invariant. -/
theorem inv_step (hash : String → Nat) (variant : Variant) (s : State) (ev : Event)
    (h : Inv s) : Inv (step hash variant s ev) := by
  cases ev with
  | observeWorkload w c =>
    simp only [step]
    split
    · exact h
    · rename_i hbusy
      split
      · rename_i hc
        obtain ⟨h1, h2, h3⟩ := h
        refine ⟨h1, ?_, ?_⟩
        · intro d hd
          rcases List.mem_cons.1 hd with rfl | hd
          · have := hc.2.2
            simpa [hasLiveJob, Dispatch.target] using this
          · exact h2 d hd
        · have hk : w.key ∉ s.inflight.map Dispatch.key := by
            simpa [busy] using hbusy
          show (w.key :: s.inflight.map Dispatch.key).Nodup
          exact List.nodup_cons.2 ⟨hk, h3⟩
      · exact h
  | startReturns key answer =>
    simp only [step]
    split
    · exact h
    · rename_i d hfind
      have hd : d ∈ s.inflight := List.mem_of_find?_eq_some hfind
      have hkey : d.key = key := by
        simpa using List.find?_some hfind
      obtain ⟨h1, h2, h3⟩ := h
      apply inv_finishStart
      · refine ⟨h1, ?_, ?_⟩
        · intro d' hd'
          exact h2 d' (List.mem_filter.1 hd').1
        · exact h3.sublist (List.Sublist.map _ (List.filter_sublist _))
      · exact h2 d hd
      · intro d' hd' heq
        have hne : d'.key ≠ key := by
          simpa using (List.mem_filter.1 hd').2
        apply hne
        rw [← hkey]
        exact congrArg Prod.fst heq
  | phaseChange jobName p =>
    simp only [step]
    obtain ⟨h1, h2, h3⟩ := h
    have hmap : (s.jobs.map (fun j =>
        if j.name = jobName ∧ j.phase.canBecome p = true then { j with phase := p } else j)).map
          ScanJobRef.target = s.jobs.map ScanJobRef.target := by
      rw [List.map_map]
      apply List.map_congr_left
      intro j _
      simp only [Function.comp]
      split <;> rfl
    refine ⟨?_, ?_, h3⟩
    · simpa only [hmap] using h1
    · intro d hd
      simpa only [hmap] using h2 d hd
  | observeJob jobName ownerExists fetched =>
    simp only [step]
    split
    · exact h
    · exact inv_reconcileJob hash s _ ownerExists fetched h
  | restart =>
    exact ⟨h.1, fun d hd => absurd hd (List.not_mem_nil d), List.nodup_nil⟩

/-- Every execution keeps the invariant. -/
theorem inv_exec (hash : String → Nat) (variant : Variant) (evs : List Event) :
    ∀ s, Inv s → Inv (exec hash variant s evs) := by
  induction evs with
  | nil => intro s h; exact h
  | cons ev evs ih =>
    intro s h
    exact ih _ (inv_step hash variant s ev h)

/-- Among jobs with pairwise different targets at most one has a given target. -/
theorem filter_target_length_le_one (l : List ScanJobRef) (t : Target)
    (h : (l.map ScanJobRef.target).Nodup) :
    (l.filter (fun j => decide (j.target = t))).length ≤ 1 := by
  induction l with
  | nil => simp
  | cons a l ih =>
    rw [List.map_cons, List.nodup_cons] at h
    by_cases ha : a.target = t
    · have hnone : l.filter (fun j => decide (j.target = t)) = [] := by
        rw [List.filter_eq_nil_iff]
        intro j hj
        simp only [decide_eq_true_eq]
        intro hjt
        exact h.1 (by rw [ha, ← hjt]; exact List.mem_map_of_mem _ hj)
      simp [List.filter_cons, ha, hnone]
    · simpa [List.filter_cons, ha] using ih h.2

/-- Under the invariant a target has at most one live ScanJobRef. -/
theorem liveCount_le_one (s : State) (t : Target) (h : Inv s) : liveCount s t ≤ 1 :=
  filter_target_length_le_one s.jobs t h.1

/-- C5: in every execution of the two reconcilers from process start, whatever the
scanner variant and the interleaving of events, each (workload, container) pair
has at most one live ScanJobRef at every point: the count is at most one, and two
live ScanJobRefs with the same pair are one and the same. -/
theorem at_most_one_in_flight (hash : String → Nat) (variant : Variant) (evs : List Event) :
    (∀ t : Target, liveCount (exec hash variant State.init evs) t ≤ 1) ∧
    (∀ j₁ ∈ (exec hash variant State.init evs).jobs,
      ∀ j₂ ∈ (exec hash variant State.init evs).jobs, j₁.target = j₂.target → j₁ = j₂) := by
  have h := inv_exec hash variant evs State.init inv_init
  exact ⟨fun t => liveCount_le_one _ t h,
    fun j₁ h₁ j₂ h₂ heq => List.inj_on_of_nodup_map h.1 h₁ h₂ heq⟩

/-- After `Upsert` the key holds the new Report. -/
theorem get_upsert_self (st : Reports) (key : Target) (r : Report) :
    Get (Upsert st key r) key = some r := by
  simp [Upsert, Get]

/-- Dropping the entries of one key leaves the other keys as they were. -/
theorem get_filter_other (st : Reports) (key key' : Target) (hne : key' ≠ key) :
    Get (st.filter (fun e => e.1 ≠ key)) key' = Get st key' := by
  induction st with
  | nil => rfl
  | cons e st ih =>
    obtain ⟨k, r⟩ := e
    by_cases hk : k = key
    · have hk' : ¬ k = key' := fun h => hne (h ▸ hk)
      have hf : List.filter (fun e => decide (e.1 ≠ key)) ((k, r) :: st)
          = List.filter (fun e => decide (e.1 ≠ key)) st :=
        List.filter_cons_of_neg (by simp [hk])
      rw [hf, ih]
      simp only [Get, if_neg hk']
    · have hf : List.filter (fun e => decide (e.1 ≠ key)) ((k, r) :: st)
          = (k, r) :: List.filter (fun e => decide (e.1 ≠ key)) st :=
        List.filter_cons_of_pos (by simp [hk])
      rw [hf]
      simp only [Get]
      rw [ih]

/-- The `Upsert` of one key leaves the other keys as they were. -/
theorem get_upsert_other (st : Reports) (key key' : Target) (r : Report) (hne : key' ≠ key) :
    Get (Upsert st key r) key' = Get st key' := by
  have hk : ¬ key = key' := fun h => hne h.symm
  simp only [Upsert, Get, if_neg hk]
  exact get_filter_other st key key' hne

/-- After `Upsert` of a Report for an image hash, `Exists` holds for that hash. -/
theorem storeExists_upsert_self (st : Reports) (key : Target) (output : ScanOutput)
    (h : Nat) : StoreExists (Upsert st key ⟨output, h⟩) key h = true := by
  simp [StoreExists, get_upsert_self]

/-- Every event leaves the report store as it is or upserts one Report. -/
theorem step_reports (hash : String → Nat) (variant : Variant) (s : State) (ev : Event) :
    (step hash variant s ev).reports = s.reports ∨
    ∃ t r, (step hash variant s ev).reports = Upsert s.reports t r := by
  cases ev with
  | observeWorkload w c =>
    simp only [step]
    split
    · exact Or.inl rfl
    · split <;> exact Or.inl rfl
  | startReturns key answer =>
    simp only [step]
    split
    · exact Or.inl rfl
    · cases answer with
      | failed => exact Or.inl rfl
      | ok output jobName =>
        cases variant with
        | sync => exact Or.inr ⟨_, _, rfl⟩
        | async =>
          simp only [finishStart, createJob]
          split <;> exact Or.inl rfl
  | phaseChange jobName p => exact Or.inl rfl
  | observeJob jobName ownerExists fetched =>
    simp only [step]
    split
    · exact Or.inl rfl
    · simp only [reconcileJob]
      split
      · exact Or.inl rfl
      · split
        · split
          · exact Or.inl rfl
          · split
            · exact Or.inl rfl
            · exact Or.inr ⟨_, _, rfl⟩
        · exact Or.inl rfl
        · exact Or.inl rfl
  | restart => exact Or.inl rfl

/-- The synchronous path from observation to Report, from any state. -/
theorem sync_scan_converges (hash : String → Nat) (s : State) (w : WorkloadRef)
    (c : Container) (output : ScanOutput) (jobName : String)
    (hbusy : busy s w.key = false) (hc : c ∈ w.containers)
    (hlive : hasLiveJob s (w.key, c.name) = false) :
    StoreExists (exec hash .sync s
      [.observeWorkload w c, .startReturns w.key (.ok output jobName)]).reports
      (w.key, c.name) (hash c.image) = true := by
  have hnone : s.inflight.find? (fun d => decide (d.key = w.key)) = none := by
    rw [List.find?_eq_none]
    intro d hd
    simp only [busy, List.any_eq_false] at hbusy
    exact hbusy d hd
  cases hn : needsScan hash s w.key c with
  | false =>
    have : StoreExists s.reports (w.key, c.name) (hash c.image) = true := by
      simpa [needsScan] using hn
    simp [exec, step, hbusy, hn, hnone, this]
  | true =>
    simp [exec, step, hbusy, hn, hc, hlive, finishStart, Dispatch.target,
      storeExists_upsert_self]

/-- The asynchronous path from observation to Report, from any state. -/
theorem async_scan_converges (hash : String → Nat) (s : State) (w : WorkloadRef)
    (c : Container) (output fetched : ScanOutput) (jobName : String)
    (hbusy : busy s w.key = false) (hc : c ∈ w.containers)
    (hneeds : needsScan hash s w.key c = true)
    (hlive : hasLiveJob s (w.key, c.name) = false)
    (hfresh : s.jobs.any (fun j => decide (j.name = jobName)) = false) :
    StoreExists (exec hash .async s
      [.observeWorkload w c, .startReturns w.key (.ok output jobName),
        .phaseChange jobName .running, .phaseChange jobName .succeeded,
        .observeJob jobName true (some fetched)]).reports
      (w.key, c.name) (hash c.image) = true := by
  have hex : StoreExists s.reports (w.key, c.name) (hash c.image) = false := by
    simpa [needsScan] using hneeds
  simp [exec, step, hbusy, hneeds, hc, hlive, finishStart, createJob, hfresh,
    Phase.canBecome, reconcileJob, ScanJobRef.target, hex, deleteJob,
    storeExists_upsert_self]

/-- C6: a scan that completes successfully leaves a matching Report in the store.
The step that takes a successful result (a synchronous Start returning output for
the Dispatch of workload and container, or the scan-job reconciler observing a
Succeeded unit of a live workload and retrieving its output) ends in a state where
`Exists(key, hash image)` holds; so do the whole synchronous and asynchronous
paths from the observation of workload W with container image I; and a later
event keeps that Report or supersedes it. -/
theorem scan_success_converges (hash : String → Nat) (s : State) :
    (∀ key d output jobName,
      s.inflight.find? (fun d' => decide (d'.key = key)) = some d →
      StoreExists (step hash .sync s (.startReturns key (.ok output jobName))).reports
        d.target (hash d.image) = true) ∧
    (∀ variant jobName j fetched,
      s.jobs.find? (fun j' => decide (j'.name = jobName)) = some j → j.phase = .succeeded →
      StoreExists (step hash variant s (.observeJob jobName true (some fetched))).reports
        j.target (hash j.image) = true) ∧
    (∀ (w : WorkloadRef) (c : Container) output jobName,
      busy s w.key = false → c ∈ w.containers → hasLiveJob s (w.key, c.name) = false →
      StoreExists (exec hash .sync s
        [.observeWorkload w c, .startReturns w.key (.ok output jobName)]).reports
        (w.key, c.name) (hash c.image) = true) ∧
    (∀ (w : WorkloadRef) (c : Container) output fetched jobName,
      busy s w.key = false → c ∈ w.containers → needsScan hash s w.key c = true →
      hasLiveJob s (w.key, c.name) = false →
      s.jobs.any (fun j => decide (j.name = jobName)) = false →
      StoreExists (exec hash .async s
        [.observeWorkload w c, .startReturns w.key (.ok output jobName),
          .phaseChange jobName .running, .phaseChange jobName .succeeded,
          .observeJob jobName true (some fetched)]).reports
        (w.key, c.name) (hash c.image) = true) ∧
    (∀ variant ev t h, StoreExists s.reports t h = true →
      StoreExists (step hash variant s ev).reports t h = true ∨
      ∃ h', h' ≠ h ∧ StoreExists (step hash variant s ev).reports t h' = true) := by
  refine ⟨?_, ?_, ?_, ?_, ?_⟩
  · intro key d output jobName hfind
    simp [step, hfind, finishStart, storeExists_upsert_self]
  · intro variant jobName j fetched hfind hphase
    simp only [step, hfind, reconcileJob, hphase]
    cases hex : StoreExists s.reports j.target (hash j.image) with
    | true => simpa [deleteJob] using hex
    | false => simp [deleteJob, storeExists_upsert_self]
  · intro w c output jobName hbusy hc hlive
    exact sync_scan_converges hash s w c output jobName hbusy hc hlive
  · intro w c output fetched jobName hbusy hc hneeds hlive hfresh
    exact async_scan_converges hash s w c output fetched jobName hbusy hc hneeds hlive hfresh
  · intro variant ev t h hex
    rcases step_reports hash variant s ev with heq | ⟨t', r, heq⟩
    · exact Or.inl (by rw [heq]; exact hex)
    · rw [heq]
      by_cases ht : t = t'
      · subst ht
        by_cases hh : r.imageHash = h
        · exact Or.inl (by simp [StoreExists, get_upsert_self, hh])
        · exact Or.inr ⟨r.imageHash, hh, by simp [StoreExists, get_upsert_self]⟩
      · refine Or.inl ?_
        simpa [StoreExists, get_upsert_other _ _ _ r ht] using hex

/-- Witness for C6: the specification's first scenario, asynchronous variant, from
process start. -/
theorem scan_success_converges_witness :
    StoreExists (exec sampleHash .async State.init
      [.observeWorkload web1 ⟨"app", "img@sha256:AAA"⟩,
        .startReturns web1.key (.ok sampleOutput "scan-web-1-app-x7"),
        .phaseChange "scan-web-1-app-x7" .running,
        .phaseChange "scan-web-1-app-x7" .succeeded,
        .observeJob "scan-web-1-app-x7" true (some sampleOutput)]).reports
      (web1.key, "app") (sampleHash "img@sha256:AAA") = true :=
  (scan_success_converges sampleHash State.init).2.2.2.1 web1 ⟨"app", "img@sha256:AAA"⟩
    sampleOutput sampleOutput "scan-web-1-app-x7" (by decide) (by decide) (by decide)
    (by decide) (by decide)

/-- Witness for C5: the specification's first scenario with a second observation
of the workload while its scan is in flight; one live ScanJobRef, not two. -/
theorem at_most_one_in_flight_witness :
    liveCount (exec sampleHash .async State.init (scenario.take 4)) (web1.key, "app") = 1 ∧
    liveCount (exec sampleHash .async State.init scenario) (web1.key, "app") ≤ 1 :=
  ⟨by decide, (at_most_one_in_flight sampleHash .async scenario).1 (web1.key, "app")⟩

end Engine
